import Mathlib

/-!
Shallow embedding of the birt-consumer row-to-document pipeline
(src/records/record.py, src/records/taxonomy.py, src/records/migration.py,
src/tools/birt_file_reader.py, src/conf/settings.py).

Python runtime values that can live in a record's field mapping are modelled
by `Value`; machine floats are modelled by `PyF` — a rational for the finite
values, plus the non-finite values `nan`, `inf` and `-inf` that `float()`
also produces.  Fallible Python code is modelled with `Except PyErr`; an
uncaught Python exception is an `Except.error`.
-/

/-- Python exceptions that can arise in the embedded fragment. -/
inductive PyErr where
  | invalidRecordProperty  -- records.record.InvalidRecordProperty
  | invalidRecordLength    -- records.record.InvalidRecordLength
  | indexError             -- IndexError (list subscript out of range)
  | typeError              -- TypeError
  | valueError             -- ValueError
  | keyError               -- KeyError
  | overflowError          -- OverflowError
deriving DecidableEq, Repr

/-- A Python float: a finite value (modelled by a rational) or one of the
non-finite values `nan`, `inf` and `-inf`, which `float()` also produces
from the spellings `nan`/`inf`/`infinity`.  `float('-nan')` is collapsed
onto `nan`, whose comparison behaviour it shares. -/
inductive PyF where
  | fin (q : ℚ)
  | nan
  | inf
  | ninf
deriving DecidableEq, Repr

/-- Python `<` on floats: every comparison involving `nan` is false, and
the infinities compare as expected. -/
def pyLt (a b : PyF) : Bool :=
  match a, b with
  | .fin x, .fin y => x < y
  | .fin _, .inf => true
  | .ninf, .fin _ => true
  | .ninf, .inf => true
  | _, _ => false

/-- Whether a Python float is the nan value. -/
def isNanF (f : PyF) : Bool :=
  match f with
  | .nan => true
  | _ => false

/-- A Python value as it occurs in a record's field mapping: `None`, `str`,
`int`, `float` (a `PyF`, possibly non-finite), `bool`, `datetime` (modelled
by its proleptic-Gregorian ordinal, as in Python's `datetime.toordinal`),
the GeoJSON point dict synthesized by `MigrationChecklistRecord.create`,
and a flat string-to-string dict (the shape of a cerberus error
mapping). -/
inductive Value where
  | null
  | str (s : String)
  | int (n : Int)
  | num (f : PyF)
  | bool (b : Bool)
  | date (ord : Int)
  | point (lon lat : PyF)
  | edict (entries : List (String × String))
deriving DecidableEq, Repr

/-- An ordered field mapping (Python `collections.OrderedDict`). -/
abbrev Fields := List (String × Value)

/-- `d[k] = v` on an ordered dict: overwrite in place if the key exists,
append otherwise. -/
def setField (fs : Fields) (k : String) (v : Value) : Fields :=
  if fs.any (fun p => p.1 == k) then
    fs.map (fun p => if p.1 == k then (k, v) else p)
  else
    fs ++ [(k, v)]

/-- Dictionary lookup on the ordered field mapping. -/
def getField (fs : Fields) (k : String) : Option Value :=
  (fs.find? (fun p => p.1 == k)).map (fun p => p.2)

/-! ## Character-level string helpers

Lean's built-in `String.toLower`, `String.trim`, `String.splitOn` and the
folds are opaque to kernel reduction (they recurse on byte positions), so
the Python string operations are modelled by structurally recursive
functions over `String.data`.  Semantically they agree with the built-ins
on the ASCII data this pipeline handles. -/

/-- `str.lower()` on a character list. -/
def lowerChars (cs : List Char) : List Char := cs.map Char.toLower

/-- `str.lower()`. -/
def lowerStr (s : String) : String := String.mk (lowerChars s.data)

/-- `str.strip()` on a character list: drop leading and trailing
whitespace. -/
def trimChars (cs : List Char) : List Char :=
  ((cs.dropWhile Char.isWhitespace).reverse.dropWhile Char.isWhitespace).reverse

/-- `str.strip()`. -/
def strTrim (s : String) : String := String.mk (trimChars s.data)

/-- Split a character list on a separator character (Python
`str.split(sep)`). -/
def splitChar (sep : Char) : List Char → List (List Char)
  | [] => [[]]
  | c :: rest =>
      match splitChar sep rest with
      | [] => [[c]]
      | h :: t => if c = sep then [] :: h :: t else (c :: h) :: t

/-! ## Python string-to-number parsing

`int(s)` and `float(s)` on strings: whitespace-trimmed, optional sign;
`float` additionally accepts a fraction part and a decimal exponent, as
well as the non-finite spellings `nan`, `inf` and `infinity`
(case-insensitive), which produce the non-finite `PyF` values. -/

/-- Digit characters to a natural number. -/
def natVal (cs : List Char) : Nat :=
  cs.foldl (fun a c => 10 * a + (c.toNat - 48)) 0

/-- All characters are ASCII digits (vacuously true of the empty list). -/
def allDigits (cs : List Char) : Bool := cs.all Char.isDigit

/-- Strip one optional leading sign, returning whether it was a minus and
the remaining characters. -/
def stripSign (cs : List Char) : Bool × List Char :=
  match cs with
  | c :: rest =>
      if c = Char.ofNat 45 then (true, rest)        -- minus sign
      else if c = Char.ofNat 43 then (false, rest)  -- plus sign
      else (false, cs)
  | [] => (false, cs)

/-- Python `int(s)` for strings: strip, optional sign, then digits only. -/
def parsePyInt (s : String) : Option Int :=
  let t := trimChars s.data
  let (neg, u) := stripSign t
  if u ≠ [] ∧ allDigits u then
    some (if neg then -(natVal u : Int) else (natVal u : Int))
  else none

/-- Mantissa of a Python float literal: `digits`, `digits.digits`,
`digits.` or `.digits`. -/
def parseMant (m : List Char) : Option ℚ :=
  match splitChar (Char.ofNat 46) m with    -- split on the decimal point
  | [ip] => if ip ≠ [] ∧ allDigits ip then some ((natVal ip : ℚ)) else none
  | [ip, fp] =>
      if (ip ≠ [] ∨ fp ≠ []) ∧ allDigits ip ∧ allDigits fp then
        some ((natVal ip : ℚ) + (natVal fp : ℚ) / (10 : ℚ) ^ fp.length)
      else none
  | _ => none

/-- Exponent of a Python float literal: optional sign then digits. -/
def parseExp (cs : List Char) : Option Int :=
  let (neg, u) := stripSign cs
  if u ≠ [] ∧ allDigits u then
    some (if neg then -(natVal u : Int) else (natVal u : Int))
  else none

/-- Python `float(s)` for strings: strip, optional sign, then either one
of the non-finite spellings `nan`, `inf`, `infinity` (case-insensitive; a
sign on `nan` is absorbed, since every nan behaves alike) or a finite
decimal literal with optional fraction and exponent. -/
def parsePyFloat (s : String) : Option PyF :=
  let t := trimChars s.data
  let (neg, u) := stripSign t
  let l := lowerChars u
  if l = ['n', 'a', 'n'] then some PyF.nan
  else if l = ['i', 'n', 'f'] ∨ l = ['i', 'n', 'f', 'i', 'n', 'i', 't', 'y'] then
    some (if neg then PyF.ninf else PyF.inf)
  else
    match splitChar (Char.ofNat 101) l with   -- split on e
    | [m] => (parseMant m).map (fun q => PyF.fin (if neg then -q else q))
    | [m, ex] =>
        match parseMant m, parseExp ex with
        | some q, some e => some (PyF.fin ((if neg then -q else q) * (10 : ℚ) ^ e))
        | _, _ => none
    | _ => none

/-! ## Record static helpers (src/records/record.py) -/

/-- `Record.is_empty_str(val)`: `str(val)` never strips to empty for any
non-string value (`str(None) = "None"`, numbers and booleans render
non-blank), so only blank strings are empty. -/
def is_empty_str (val : Value) : Bool :=
  match val with
  | .str s => trimChars s.data = []
  | _ => false

/-- `Record.could_be_float(val)`: float instances, or strings parseable as a
float.  Integers and booleans are not float instances. -/
def could_be_float (val : Value) : Bool :=
  match val with
  | .num _ => true
  | .str s => (parsePyFloat s).isSome
  | _ => false

/-- `Record.could_be_int(val)`: int instances (which in Python include
booleans), or strings parseable as an int. -/
def could_be_int (val : Value) : Bool :=
  match val with
  | .int _ => true
  | .bool _ => true
  | .str s => (parsePyInt s).isSome
  | _ => false

/-- `Record.could_be_number(val)`: float/int/long instances (booleans are int
instances), or strings parseable as a float. -/
def could_be_number (val : Value) : Bool :=
  match val with
  | .num _ => true
  | .int _ => true
  | .bool _ => true
  | .str s => (parsePyFloat s).isSome
  | _ => false

/-- `Record.could_be_boolean(val)`: booleans, the strings
`true/false/1/0` (case-insensitive), or the integers 0 and 1. -/
def could_be_boolean (val : Value) : Bool :=
  match val with
  | .bool _ => true
  | .str s => lowerStr s = "true" ∨ lowerStr s = "1" ∨ lowerStr s = "false" ∨ lowerStr s = "0"
  | .int n => n = 0 ∨ n = 1
  | _ => false

/-- Python `int(val)` for values that passed `could_be_int`. -/
def pyInt (val : Value) : Int :=
  match val with
  | .int n => n
  | .bool b => if b then 1 else 0
  | .str s => (parsePyInt s).getD 0
  | _ => 0

/-- Python `float(val)` for values that passed
`could_be_float`/`could_be_number`. -/
def pyFloat (val : Value) : PyF :=
  match val with
  | .num f => f
  | .int n => .fin (n : ℚ)
  | .bool b => .fin (if b then 1 else 0)
  | .str s => (parsePyFloat s).getD (.fin 0)
  | _ => .fin 0

/-- `Record.parse_boolean(field)`: when the value could be a boolean, ints
(including Python booleans) go through `bool(int(field))`, the strings
`true`/`false` by name, anything else through `bool(field)`; otherwise
`None`. -/
def parse_boolean (field : Value) : Value :=
  if could_be_boolean field then
    if could_be_int field then .bool (pyInt field ≠ 0)
    else
      match field with
      | .str s =>
          if lowerStr s = "true" then .bool true
          else if lowerStr s = "false" then .bool false
          else .bool (s ≠ "")
      | _ => .bool true
  else .null

/-! ## Month-year date parsing (the Python `datetime.strptime` calls)

Only the repository's single configured format `'%b %Y'`
(`settings._STRFTIME_FORMAT`) is modelled; any other format string parses
nothing.  Ordinals follow `datetime.toordinal` (day 1 = 0001-01-01). -/

/-- Gregorian leap year. -/
def isLeap (y : Int) : Bool := y % 4 = 0 ∧ (y % 100 ≠ 0 ∨ y % 400 = 0)

/-- Days in the years strictly before year `y` (proleptic Gregorian). -/
def daysBeforeYear (y : Int) : Int :=
  365 * (y - 1) + (y - 1) / 4 - (y - 1) / 100 + (y - 1) / 400

/-- Days in the months of year `y` strictly before month `m`. -/
def daysBeforeMonth (y : Int) (m : Nat) : Int :=
  let cum := [0, 31, 59, 90, 120, 151, 181, 212, 243, 273, 304, 334]
  (cum.getD (m - 1) 0 : Int) + (if 2 < m ∧ isLeap y then 1 else 0)

/-- `datetime(y, m, d).toordinal()`. -/
def ordinalYMD (y : Int) (m : Nat) (d : Int) : Int :=
  daysBeforeYear y + daysBeforeMonth y m + d

/-- Ordinal of January 1st of year `y`. -/
def ordJan1 (y : Int) : Int := daysBeforeYear y + 1

/-- Abbreviated month names for the `%b` directive (matched
case-insensitively, as CPython does). -/
def monthAbbrevs : List String :=
  ["jan", "feb", "mar", "apr", "may", "jun",
   "jul", "aug", "sep", "oct", "nov", "dec"]

/-- `datetime.strptime(s, "%b %Y")`: abbreviated month, space, year digits;
returns the ordinal of the first day of that month, or `none` when parsing
(or the datetime constructor) fails. -/
def parseMonYear (s : String) : Option Int :=
  match splitChar (Char.ofNat 32) (trimChars s.data) with
  | [mon, yr] =>
      match (monthAbbrevs.indexOf? (String.mk (lowerChars mon))) with
      | some i =>
          if yr ≠ [] ∧ allDigits yr ∧ yr.length ≤ 4 ∧ 1 ≤ natVal yr then
            some (ordinalYMD (natVal yr : Int) (i + 1) 1)
          else none
      | none => none
  | _ => none

/-- `datetime.strptime(s, fmt)` restricted to the repository's only format. -/
def strptime (s fmt : String) : Option Int :=
  if fmt = "%b %Y" then parseMonYear s else none

/-- `settings._STRFTIME_FORMAT`. -/
def STRFTIME_FORMAT : String := "%b %Y"

/-- `settings._DISABLE_SCHEMA_MATCH` (True in src/conf/settings.py). -/
def DISABLE_SCHEMA_MATCH : Bool := true

/-- `settings._CHUNK_SIZE`. -/
def CHUNK_SIZE : Nat := 5000

/-- `Record.could_be_datetime(val, fmt)`: datetime instances, or non-blank
strings parsed by `strptime` with a non-blank format. -/
def could_be_datetime (val : Value) (fmt : String) : Bool :=
  match val with
  | .date _ => true
  | .str s =>
      if trimChars s.data = [] ∨ trimChars fmt.data = [] then false
      else (strptime s fmt).isSome
  | _ => false

/-! ## Cerberus validation model

The repository validates field mappings with `cerberus.Validator`.  The
fragment it uses: per-field `type` (`string`, `integer`, `number`,
`boolean`, `datetime`, `dict`), `nullable` (a `None` value is an error
unless `nullable` is true), `required` (the key must be present), and
`allow_unknown` (fields absent from the schema pass instead of erroring).
The `loc` entry's nested dict schema (`type`/`coordinates`) is matched
exactly by the synthesized GeoJSON point value. -/

/-- The cerberus type tags used by the repository's schemas. -/
inductive SType where
  | string
  | integer
  | number
  | float
  | boolean
  | datetime
  | dictLoc   -- the nested GeoJSON point schema of the checklist loc field
  | dictAny   -- a plain dict (the Errors payload of an invalid record)
deriving DecidableEq, Repr

/-- The per-field datetime format entry: the key may be absent from the
schema dict (then reading it raises KeyError), present with value `None`
(then the settings default is used), or present with a format string. -/
inductive DtFmt where
  | absent
  | null
  | fmt (s : String)
deriving DecidableEq, Repr

/-- One schema entry: declared type, nullability, required flag and the
optional datetime format. -/
structure FieldSchema where
  type : SType
  nullable : Bool
  required : Bool
  dtFormat : DtFmt := .absent
deriving DecidableEq, Repr

/-- A cerberus schema: ordered mapping of field name to entry. -/
abbrev Schema := List (String × FieldSchema)

/-- Schema lookup. -/
def lookupSchema (sch : Schema) (k : String) : Option FieldSchema :=
  (sch.find? (fun p => p.1 == k)).map (fun p => p.2)

/-- Cerberus runtime type check (`isinstance`-based): booleans are int
instances, so they satisfy `integer` and `number`. -/
def typeMatches (t : SType) (v : Value) : Bool :=
  match t, v with
  | .string, .str _ => true
  | .integer, .int _ => true
  | .integer, .bool _ => true
  | .number, .int _ => true
  | .number, .num _ => true
  | .number, .bool _ => true
  | .float, .num _ => true
  | .boolean, .bool _ => true
  | .datetime, .date _ => true
  | .dictLoc, .point _ _ => true
  | .dictAny, .edict _ => true
  | .dictAny, .point _ _ => true
  | _, _ => false

/-- `Validator(schema, ...).validate(fields)`: every required field present,
and every present field either null-and-nullable or of the declared type;
unknown fields pass only under `allow_unknown`. -/
def cerbValidate (sch : Schema) (fields : Fields) (allowUnknown : Bool) : Bool :=
  (sch.all (fun p => !p.2.required || fields.any (fun q => q.1 == p.1))) &&
  (fields.all (fun q =>
    match lookupSchema sch q.1 with
    | some fe =>
        match q.2 with
        | .null => fe.nullable
        | v => typeMatches fe.type v
    | none => allowUnknown))

/-- `Validator(...).errors` after a `validate` call: one entry per
violation (missing required field, non-nullable null, type mismatch,
unknown field in strict mode). -/
def cerbErrors (sch : Schema) (fields : Fields) (allowUnknown : Bool) :
    List (String × String) :=
  (sch.filterMap (fun p =>
    if p.2.required ∧ ¬ fields.any (fun q => q.1 == p.1) then
      some (p.1, "required field") else none))
  ++ (fields.filterMap (fun q =>
    match lookupSchema sch q.1 with
    | some fe =>
        match q.2 with
        | .null => if fe.nullable then none else some (q.1, "null value not allowed")
        | v => if typeMatches fe.type v then none else some (q.1, "must be of " ++ "expected type")
    | none => if allowUnknown then none else some (q.1, "unknown field")))

/-! ## Field coercion (`Record.set_field_by_schema`) -/

/-- The datetime arm of `Record.set_field_by_schema` once the per-field
format is resolved (the settings default substitutes for a `None` format):
`could_be_datetime` gates the branch, and then `datetime.strptime` is
called on the raw field — which raises TypeError when the field is already
a datetime instance rather than a string. -/
def coerceDatetime (fields : Fields) (header : String) (field : Value)
    (fmt : String) : Except PyErr Fields :=
  if could_be_datetime field fmt then
    match field with
    | .str s =>
        match strptime s fmt with
        | some d => .ok (setField fields header (.date d))
        | none => .error .valueError
    | _ => .error .typeError
  else .ok (setField fields header .null)

/-- `Record.set_field_by_schema(header, field)`: headers absent from the
schema are silently ignored under `settings._DISABLE_SCHEMA_MATCH` (and
raise `InvalidRecordProperty` otherwise); for known headers the value is
coerced by the declared type.  The `datetime` branch reads the schema's
`datetime_format` entry (KeyError if the key is absent), substitutes the
settings default for `None`, and calls `datetime.strptime` on the raw
field after `could_be_datetime` — which raises TypeError when the field is
itself already a datetime instance rather than a string. -/
def set_field_by_schema (sch : Schema) (fields : Fields) (header : String)
    (field : Value) : Except PyErr Fields :=
  match lookupSchema sch header with
  | none =>
      if DISABLE_SCHEMA_MATCH then .ok fields
      else .error .invalidRecordProperty
  | some fe =>
    match fe.type with
    | .string =>
        if is_empty_str field then .ok (setField fields header .null)
        else if field = .str "?" then .ok (setField fields header .null)
        else .ok (setField fields header field)
    | .integer =>
        if could_be_int field then .ok (setField fields header (.int (pyInt field)))
        else .ok (setField fields header .null)
    | .datetime =>
        match fe.dtFormat with
        | .absent => .error .keyError
        | .null => coerceDatetime fields header field STRFTIME_FORMAT
        | .fmt s => coerceDatetime fields header field s
    | .number =>
        if could_be_number field then .ok (setField fields header (.num (pyFloat field)))
        else .ok (setField fields header .null)
    | .float =>
        if could_be_float field then .ok (setField fields header (.num (pyFloat field)))
        else .ok (setField fields header .null)
    | .boolean => .ok (setField fields header (parse_boolean field))
    | _ => .ok fields   -- no branch matches the declared type: nothing is set

/-! ## Provider maps and schemas (src/records/taxonomy.py, migration.py) -/

/-- `TaxonomyType.map` (header to canonical field). -/
def taxonomyMap : List (String × String) :=
  [("sci_name", "sci_name"), ("taxon_order", "taxon_order"),
   ("primary_com_name", "primary_com_name"), ("category", "category"),
   ("order_name", "order_name"), ("family_name", "family_name"),
   ("subfamily_name", "subfamily_name"), ("genus_name", "genus_name"),
   ("species_name", "species_name")]

/-- `MigrationChecklistType.map`. -/
def checklistMap : List (String × String) :=
  [("sampling_event_id", "sampling_event_id"), ("loc_id", "loc_id"),
   ("latitude", "latitude"), ("longitude", "longitude"),
   ("year", "year"), ("month", "month"), ("day", "day"), ("time", "time"),
   ("country", "country"), ("state_province", "state_province"),
   ("county", "county"), ("count_type", "count_type"),
   ("effort_hrs", "effort_hrs"), ("effort_distance_km", "effort_distance_km"),
   ("effort_area_ha", "effort_area_ha"), ("observer_id", "observer_id"),
   ("number_observers", "number_observers"), ("group_id", "group_id"),
   ("primary_checklist_flag", "primary_checklist_flag")]

/-- `MigrationCoreType.map`. -/
def coreMap : List (String × String) :=
  [("sampling_event_id", "sampling_event_id"), ("loc_id", "loc_id"),
   ("pop00_sqmi", "pop00_sqmi"), ("housing_density", "housing_density"),
   ("housing_percent_vacant", "housing_percent_vacant"),
   ("elev_gt", "elev_gt"), ("elev_ned", "elev_ned"), ("bcr", "bcr"),
   ("bailey_ecoregion", "bailey_ecoregion"),
   ("omernik_l3_ecoregion", "omernik_l3_ecoregion"),
   ("caus_temp_avg", "caus_temp_avg"), ("caus_temp_min", "caus_temp_min"),
   ("caus_temp_max", "caus_temp_max"), ("caus_prec", "caus_prec"),
   ("caus_snow", "caus_snow")]

/-- `Record.map_header(header)`: lowercase lookup in the provider map,
returning the `maps_to` value, or `None` when absent. -/
def map_header (providerMap : List (String × String)) (header : String) :
    Option String :=
  (providerMap.find? (fun p => p.1 == lowerStr header)).map (fun p => p.2)

/-- `TaxonomyRecord.schema` (cerberus defaults: `nullable` and `required`
are false when not given). -/
def taxonomySchema : Schema :=
  [("taxon_order", { type := .number, nullable := true, required := false }),
   ("primary_com_name", { type := .string, nullable := false, required := true }),
   ("category", { type := .string, nullable := true, required := false }),
   ("order_name", { type := .string, nullable := true, required := false }),
   ("family_name", { type := .string, nullable := true, required := false }),
   ("subfamily_name", { type := .string, nullable := true, required := false }),
   ("genus_name", { type := .string, nullable := true, required := false }),
   ("species_name", { type := .string, nullable := true, required := false })]

/-- `MigrationChecklistRecord.schema`: note `loc` is declared
`nullable: False`, and `year`/`month`/`day` are required non-nullable
integers. -/
def checklistSchema : Schema :=
  [("loc_id", { type := .string, nullable := true, required := false }),
   ("loc", { type := .dictLoc, nullable := false, required := false }),
   ("year", { type := .integer, nullable := false, required := true }),
   ("month", { type := .integer, nullable := false, required := true }),
   ("day", { type := .integer, nullable := false, required := true }),
   ("time", { type := .number, nullable := true, required := false }),
   ("country", { type := .string, nullable := true, required := false }),
   ("state_province", { type := .string, nullable := true, required := false }),
   ("county", { type := .string, nullable := true, required := false }),
   ("count_type", { type := .string, nullable := true, required := false }),
   ("effort_hrs", { type := .number, nullable := true, required := false }),
   ("effort_distance_km", { type := .number, nullable := true, required := false }),
   ("effort_area_ha", { type := .number, nullable := true, required := false }),
   ("observer_id", { type := .string, nullable := true, required := false }),
   ("number_observers", { type := .integer, nullable := true, required := false }),
   ("group_id", { type := .string, nullable := true, required := false }),
   ("primary_checklist_flag", { type := .boolean, nullable := true, required := false })]

/-- `MigrationCoreRecord.schema`. -/
def coreSchema : Schema :=
  [("loc_id", { type := .string, nullable := true, required := false }),
   ("pop00_sqmi", { type := .number, nullable := true, required := false }),
   ("housing_density", { type := .number, nullable := true, required := false }),
   ("housing_percent_vacant", { type := .number, nullable := true, required := false }),
   ("elev_gt", { type := .integer, nullable := true, required := false }),
   ("elev_ned", { type := .number, nullable := true, required := false }),
   ("bcr", { type := .integer, nullable := true, required := false }),
   ("bailey_ecoregion", { type := .string, nullable := true, required := false }),
   ("omernik_l3_ecoregion", { type := .integer, nullable := true, required := false }),
   ("caus_temp_avg", { type := .integer, nullable := true, required := false }),
   ("caus_temp_min", { type := .integer, nullable := true, required := false }),
   ("caus_temp_max", { type := .integer, nullable := true, required := false }),
   ("caus_prec", { type := .integer, nullable := true, required := false }),
   ("caus_snow", { type := .integer, nullable := true, required := false })]

/-- `InvalidRecord.schema`: datetime `Date` (required), dict `Errors`
(required), string `RecordType` (required), nullable integer `RowNum`. -/
def invalidSchema : Schema :=
  [("Date", { type := .datetime, nullable := false, required := true }),
   ("Errors", { type := .dictAny, nullable := false, required := true }),
   ("RecordType", { type := .string, nullable := false, required := true }),
   ("RowNum", { type := .integer, nullable := true, required := false })]

/-- Modelled from the spec: `Record.sanitize_key` is called from
`MigrationChecklistRecord.create` and `MigrationCoreRecord.create`
(src/records/migration.py) but is not defined anywhere under src/.  The
spec says unmapped headers are "retained under a sanitized column name
(non-alphanumeric characters replaced, e.g. with underscore)". -/
def sanitize_key (s : String) : String :=
  String.mk (s.data.map (fun c => if c.isAlphanum then c else Char.ofNat 95))

/-! ## TaxonomyRecord (src/records/taxonomy.py) -/

/-- The mutable state a `TaxonomyRecord` accumulates during `create`. -/
structure TaxState where
  fields : Fields
  id : Option String
deriving DecidableEq, Repr

/-- One iteration of the `TaxonomyRecord.create` loop at `position`. -/
def taxStep (hdr : List String) (pos : Nat) (cell : String) (st : TaxState) :
    Except PyErr TaxState :=
  match hdr[pos]? with
  | none => .error .indexError
  | some unmapped =>
    match map_header taxonomyMap unmapped with
    | none => .ok st
    | some header =>
      if strTrim header = "" then .ok st
      else if lowerStr header = "sci_name" then
        .ok (if is_empty_str (.str cell) then st
             else { st with id := some (lowerStr cell) })
      else
        match set_field_by_schema taxonomySchema st.fields header (.str cell) with
        | .ok fs => .ok { st with fields := fs }
        | .error e => .error e

/-- The `for field in row` loop of `TaxonomyRecord.create`. -/
def taxLoop (hdr : List String) : List String → Nat → TaxState →
    Except PyErr TaxState
  | [], _, st => .ok st
  | cell :: rest, pos, st =>
    match taxStep hdr pos cell st with
    | .error e => .error e
    | .ok st2 => taxLoop hdr rest (pos + 1) st2

/-- `TaxonomyRecord.create(row)`: missing header raises
`InvalidRecordProperty`; a row length different from the header length
raises `InvalidRecordLength`; then the per-field loop runs. -/
def taxCreate (headerRow : Option (List String)) (row : List String) :
    Except PyErr TaxState :=
  match headerRow with
  | none => .error .invalidRecordProperty
  | some hdr =>
    if hdr.length ≠ row.length then .error .invalidRecordLength
    else taxLoop hdr row 0 { fields := [], id := none }

/-- `TaxonomyRecord.validate()` (via `Record.validate`): false when no
identifier was assigned, else cerberus validation without
`allow_unknown`. -/
def taxValidateB (st : TaxState) : Bool :=
  st.id.isSome && cerbValidate taxonomySchema st.fields false

/-! ## MigrationChecklistRecord (src/records/migration.py) -/

/-- `MigrationChecklistRecord.is_valid_coordinate_pair(coordinates)` with
the pair as `[longitude, latitude]`: both present, and neither rejected by
the range tests `latitude < -90.0 or latitude > 90.0` and
`longitude < -180.0 or longitude > 180.0`.  The comparisons are Python
float comparisons, so a `nan` coordinate fails *no* test and the pair
passes. -/
def is_valid_coordinate_pair (lon lat : Option PyF) : Bool :=
  match lon, lat with
  | some lo, some la =>
      if pyLt la (.fin (-90)) || pyLt (.fin 90) la then false
      else if pyLt lo (.fin (-180)) || pyLt (.fin 180) lo then false
      else true
  | _, _ => false

/-- `MigrationChecklistRecord.gen_date()`: empty fields or fields failing
validation leave the date `None`; for validated fields the date is
`datetime(year, 1, 1) + timedelta(days = day - 1)`.  Only `ValueError`
(year outside [1, 9999]) is caught; the `OverflowError` raised by an
out-of-range `timedelta` or sum escapes. -/
def gen_date (fields : Fields) : Except PyErr Value :=
  if fields.isEmpty then .ok .null
  else if cerbValidate checklistSchema fields true = false then .ok .null
  else
    match getField fields "year", getField fields "day" with
    | some yv, some dv =>
      match yv, dv with
      | .int y, .int d =>
          if y < 1 ∨ 9999 < y then .ok .null
          else if 999999999 < (d - 1).natAbs then .error .overflowError
          else if ordJan1 y + (d - 1) < 1 ∨ 3652059 < ordJan1 y + (d - 1) then
            .error .overflowError
          else .ok (.date (ordJan1 y + (d - 1)))
      | _, _ => .error .typeError
    | _, _ => .error .keyError

/-- The state a `MigrationChecklistRecord` accumulates during `create`:
field mapping, identifier, the pending `[longitude, latitude]` pair and the
cerberus errors left behind by `gen_date`'s validation call. -/
structure MCState where
  fields : Fields
  id : Option String
  lon : Option PyF
  lat : Option PyF
  stale : List (String × String)
deriving DecidableEq, Repr

/-- One iteration of the `MigrationChecklistRecord.create` loop: unmapped
headers keep only positive-integer values under the sanitized key; blank
mapped headers are skipped; `sampling_event_id` sets the identifier;
`longitude`/`latitude` accumulate into the pending coordinate pair; all
other mapped headers go through schema-driven coercion. -/
def mcStep (hdr : List String) (pos : Nat) (cell : String) (st : MCState) :
    Except PyErr MCState :=
  match hdr[pos]? with
  | none => .error .indexError
  | some unmapped =>
    match map_header checklistMap unmapped with
    | none =>
        if could_be_int (.str cell) then
          if 0 < pyInt (.str cell) then
            .ok { st with fields := setField st.fields (sanitize_key unmapped)
                            (.int (pyInt (.str cell))) }
          else .ok st
        else .ok st
    | some header =>
      if strTrim header = "" then .ok st
      else if lowerStr header = "sampling_event_id" then
        .ok (if is_empty_str (.str cell) then st else { st with id := some cell })
      else if lowerStr header = "longitude" then
        .ok (if could_be_float (.str cell) then
              { st with lon := some (pyFloat (.str cell)) } else st)
      else if lowerStr header = "latitude" then
        .ok (if could_be_float (.str cell) then
              { st with lat := some (pyFloat (.str cell)) } else st)
      else
        match set_field_by_schema checklistSchema st.fields header (.str cell) with
        | .ok fs => .ok { st with fields := fs }
        | .error e => .error e

/-- The `for field in row` loop of `MigrationChecklistRecord.create`. -/
def mcLoop (hdr : List String) : List String → Nat → MCState →
    Except PyErr MCState
  | [], _, st => .ok st
  | cell :: rest, pos, st =>
    match mcStep hdr pos cell st with
    | .error e => .error e
    | .ok st2 => mcLoop hdr rest (pos + 1) st2

/-- The post-loop tail of `MigrationChecklistRecord.create`: synthesize the
GeoJSON `loc` (null unless the pair is valid), then compute and store the
generated date.  `gen_date` runs the record's validator, whose error state
the record keeps. -/
def mcFinalize (st : MCState) : Except PyErr MCState :=
  let locv := if is_valid_coordinate_pair st.lon st.lat then
      Value.point (st.lon.getD (PyF.fin 0)) (st.lat.getD (PyF.fin 0)) else Value.null
  let fs2 := setField st.fields "loc" locv
  match gen_date fs2 with
  | .error e => .error e
  | .ok dv =>
      .ok { fields := setField fs2 "date" dv, id := st.id,
            lon := st.lon, lat := st.lat,
            stale := if fs2.isEmpty then [] else cerbErrors checklistSchema fs2 true }

/-- `MigrationChecklistRecord.create(row)`. -/
def mcCreate (headerRow : Option (List String)) (row : List String) :
    Except PyErr MCState :=
  match headerRow with
  | none => .error .invalidRecordProperty
  | some hdr =>
    match mcLoop hdr row 0 { fields := [], id := none, lon := none,
                             lat := none, stale := [] } with
    | .error e => .error e
    | .ok st => mcFinalize st

/-- `MigrationChecklistRecord.validate()`: identifier present and cerberus
validation with `allow_unknown=True`. -/
def mcValidateB (st : MCState) : Bool :=
  st.id.isSome && cerbValidate checklistSchema st.fields true

/-! ## MigrationCoreRecord (src/records/migration.py) -/

/-- The state a `MigrationCoreRecord` accumulates during `create`. -/
structure CoreState where
  fields : Fields
  id : Option String
deriving DecidableEq, Repr

/-- One iteration of the `MigrationCoreRecord.create` loop: unmapped
headers are always kept under the sanitized key, as a float when the value
probes as a number and as null otherwise. -/
def coreStep (hdr : List String) (pos : Nat) (cell : String) (st : CoreState) :
    Except PyErr CoreState :=
  match hdr[pos]? with
  | none => .error .indexError
  | some unmapped =>
    match map_header coreMap unmapped with
    | none =>
        if could_be_number (.str cell) then
          .ok { st with fields := setField st.fields (sanitize_key unmapped)
                          (.num (pyFloat (.str cell))) }
        else
          .ok { st with fields := setField st.fields (sanitize_key unmapped) .null }
    | some header =>
      if strTrim header = "" then .ok st
      else if lowerStr header = "sampling_event_id" then
        .ok (if is_empty_str (.str cell) then st else { st with id := some cell })
      else
        match set_field_by_schema coreSchema st.fields header (.str cell) with
        | .ok fs => .ok { st with fields := fs }
        | .error e => .error e

/-- The `for field in row` loop of `MigrationCoreRecord.create`. -/
def coreLoop (hdr : List String) : List String → Nat → CoreState →
    Except PyErr CoreState
  | [], _, st => .ok st
  | cell :: rest, pos, st =>
    match coreStep hdr pos cell st with
    | .error e => .error e
    | .ok st2 => coreLoop hdr rest (pos + 1) st2

/-- `MigrationCoreRecord.create(row)`. -/
def coreCreate (headerRow : Option (List String)) (row : List String) :
    Except PyErr CoreState :=
  match headerRow with
  | none => .error .invalidRecordProperty
  | some hdr => coreLoop hdr row 0 { fields := [], id := none }

/-! ## Invalid records and per-row processing
(src/records/record.py, src/tools/birt_file_reader.py) -/

/-- Rendering of one Python float for the serialized snapshot. -/
def pyfStr (f : PyF) : String :=
  match f with
  | .fin q => toString q
  | .nan => "NaN"
  | .inf => "Infinity"
  | .ninf => "-Infinity"

/-- Simplified rendering of one field value for the serialized snapshot
that `Record.to_json` produces (the snapshot's content is opaque to the
pipeline; only its presence matters). -/
def valueJson (v : Value) : String :=
  match v with
  | .null => "null"
  | .str s => s
  | .int n => toString n
  | .num f => pyfStr f
  | .bool b => toString b
  | .date d => "date " ++ toString d
  | .point lo la => "Point " ++ pyfStr lo ++ " " ++ pyfStr la
  | .edict es => String.intercalate ", " (es.map (fun p => p.1 ++ ": " ++ p.2))

/-- Simplified model of `Record.to_json` (a `json.dumps` of the field
mapping). -/
def fieldsJson (fs : Fields) : String :=
  String.intercalate ", " (fs.map (fun p => p.1 ++ ": " ++ valueJson p.2))

/-- `Record.validation_errors()`: the validator's error mapping, with the
serialized field snapshot appended under the key `fields` whenever the
mapping is non-empty. -/
def validation_errors (errors : List (String × String)) (fields : Fields) :
    List (String × String) :=
  if errors.length > 0 then errors ++ [("fields", fieldsJson fields)]
  else errors

/-- The field mapping built by the `InvalidRecord` constructor: capture
timestamp (`datetime.utcnow()`, passed in as `now`), the error payload, the
record-type name and the row number. -/
def invalidRecordFields (now : Int) (errors : List (String × String))
    (recordType : String) (rowNum : Option Int) : Fields :=
  [("Date", Value.date now), ("Errors", Value.edict errors),
   ("RecordType", Value.str recordType),
   ("RowNum", rowNum.elim Value.null Value.int)]

/-- `InvalidRecord.validate()`. -/
def invalidValidateB (fields : Fields) : Bool :=
  cerbValidate invalidSchema fields false

/-- The validator error state of a `TaxonomyRecord` after `validate()` ran:
when the identifier is missing, `validate` short-circuits and the
validator (which never ran) still holds an empty error mapping. -/
def taxErrorsAfterValidate (st : TaxState) : List (String × String) :=
  if st.id.isNone then [] else cerbErrors taxonomySchema st.fields false

/-- The validator error state of a `MigrationChecklistRecord` after
`validate()` ran: when the identifier is missing, `validate`
short-circuits and the errors are the ones `gen_date`'s validation call
left behind. -/
def mcErrorsAfterValidate (st : MCState) : List (String × String) :=
  if st.id.isNone then st.stale else cerbErrors checklistSchema st.fields true

/-- `BirtFileReader.process_row` for the Taxonomy contract
(`data_position = 1`): rows before the data position, at the end-of-data
index, or entirely blank are skipped; construction/creation exceptions of
the three caught classes make the handler log and bare-`return` (modelled
as `ok none` — Python `None` instead of a two-element list); other
exceptions propagate; a valid record is returned on the left, a
schema-valid invalid record on the right, and a row whose invalid record
fails its own validation contributes nothing. -/
def processRowTax (headerRow : Option (List String)) (endOfData : Nat)
    (rowCount : Nat) (row : List String) (now : Int) :
    Except PyErr (Option (Option TaxState × Option Fields)) :=
  if 1 ≤ rowCount ∧ rowCount ≠ endOfData then
    if row.any (fun s => s ≠ "") then
      match taxCreate headerRow row with
      | .error .invalidRecordProperty => .ok none
      | .error .invalidRecordLength => .ok none
      | .error e => .error e
      | .ok rec =>
        if taxValidateB rec then .ok (some (some rec, none))
        else
          let inv := invalidRecordFields now
            (validation_errors (taxErrorsAfterValidate rec) rec.fields)
            "TaxonomyRecord" (some (rowCount : Int))
          if invalidValidateB inv then .ok (some (none, some inv))
          else .ok (some (none, none))
    else .ok (some (none, none))
  else .ok (some (none, none))

/-- `BirtFileReader.process_row` for the Migration-Checklist contract. -/
def processRowMC (headerRow : Option (List String)) (endOfData : Nat)
    (rowCount : Nat) (row : List String) (now : Int) :
    Except PyErr (Option (Option MCState × Option Fields)) :=
  if 1 ≤ rowCount ∧ rowCount ≠ endOfData then
    if row.any (fun s => s ≠ "") then
      match mcCreate headerRow row with
      | .error .invalidRecordProperty => .ok none
      | .error .invalidRecordLength => .ok none
      | .error e => .error e
      | .ok rec =>
        if mcValidateB rec then .ok (some (some rec, none))
        else
          let inv := invalidRecordFields now
            (validation_errors (mcErrorsAfterValidate rec) rec.fields)
            "MigrationChecklistRecord" (some (rowCount : Int))
          if invalidValidateB inv then .ok (some (none, some inv))
          else .ok (some (none, none))
    else .ok (some (none, none))
  else .ok (some (none, none))

/-- `BirtFileReader.syncprocess_chunk` for the Taxonomy contract: each row
result is unpacked as `valid, invalid = process_row(data)` — when
`process_row` returned `None` (a caught construction error), the unpacking
itself raises `TypeError`, aborting the chunk before anything is flushed.
On success the accumulated valid and invalid batches are handed to
`bulk_upsert`, modelled as the returned pair. -/
def syncprocessChunkTax (headerRow : Option (List String)) (endOfData : Nat)
    (now : Int) : List (Nat × List String) →
    List TaxState → List Fields →
    Except PyErr (List TaxState × List Fields)
  | [], validAcc, invalidAcc => .ok (validAcc.reverse, invalidAcc.reverse)
  | (rc, row) :: rest, validAcc, invalidAcc =>
    match processRowTax headerRow endOfData rc row now with
    | .error e => .error e
    | .ok none => .error .typeError
    | .ok (some (v, i)) =>
        syncprocessChunkTax headerRow endOfData now rest
          (v.elim validAcc (fun r => r :: validAcc))
          (i.elim invalidAcc (fun r => r :: invalidAcc))

/-! ## Spec-side descriptions and concrete scenario data -/

/-- "Within [-b, b]" as the claim reads it: a finite float inside the
closed interval; `nan` and the infinities lie within no interval. -/
def pyInRange (f : PyF) (b : ℚ) : Bool :=
  match f with
  | .fin q => decide (-b ≤ q ∧ q ≤ b)
  | _ => false

/-- The spec's description of the synthesized `loc` value (C2): for float
coordinates with latitude within [-90, 90] and longitude within
[-180, 180] a GeoJSON point in longitude-latitude order, otherwise null. -/
def specLoc (lon lat : Option PyF) : Value :=
  match lon, lat with
  | some lo, some la =>
      if pyInRange la 90 && pyInRange lo 180 then Value.point lo la
      else Value.null
  | _, _ => Value.null

/-- The corrected description of the synthesized `loc` value: a coordinate
passes the range test when it lies within its closed interval *or when it
is nan* — Python comparisons against nan are all false, so
`is_valid_coordinate_pair` never rejects a nan coordinate.  The
infinities and out-of-range finite values still give null. -/
def sourceLocDesc (lon lat : Option PyF) : Value :=
  match lon, lat with
  | some lo, some la =>
      if (pyInRange la 90 || isNanF la) && (pyInRange lo 180 || isNanF lo) then
        Value.point lo la
      else Value.null
  | _, _ => Value.null

/-- Header of the fully-mapped Migration-Checklist scenario row. -/
def c4hdr : List String :=
  ["sampling_event_id", "loc_id", "latitude", "longitude", "year", "month",
   "day", "time", "country", "state_province", "county", "count_type",
   "effort_hrs", "effort_distance_km", "effort_area_ha", "observer_id",
   "number_observers", "group_id", "primary_checklist_flag"]

/-- The scenario row with `longitude=200`, `latitude=40` and every other
mapped field valid. -/
def c4row : List String :=
  ["S1", "L1", "40", "200", "2015", "3", "2", "7.5", "United States",
   "New York", "Suffolk", "P21", "1.5", "2.0", "3.0", "obsr123", "2",
   "G1", "1"]

/-- Six-column Migration-Checklist header used for the date scenarios. -/
def c3hdr : List String :=
  ["sampling_event_id", "latitude", "longitude", "year", "month", "day"]

/-- A hypothetical schema with one datetime field carrying the default
month-year format (the repository's own schemas declare no datetime
field, but `set_field_by_schema` handles the type). -/
def dtSchema : Schema :=
  [("d", { type := SType.datetime, nullable := true, required := false,
           dtFormat := DtFmt.fmt "%b %Y" })]

/-- The record-type tags registered in `settings._TYPES` together with the
record class names used to tag invalid records. -/
def knownRecordTypeNames : List String :=
  ["TaxonomyRecord", "MigrationChecklistRecord", "MigrationCoreRecord"]

/-- State produced by `MigrationChecklistRecord.create` on the one-column
row `longitude=200` (used to witness the loc-null implies date-null
invariant). -/
def c10St : MCState :=
  { fields := [("loc", Value.null), ("date", Value.null)], id := none,
    lon := some (PyF.fin 200), lat := none,
    stale := cerbErrors checklistSchema [("loc", Value.null)] true }

/-- The record state `MigrationChecklistRecord.create` reaches on the
two-column row `longitude="50"`, `latitude="nan"`. -/
def c2St : MCState :=
  { fields := [("loc", Value.point (PyF.fin 50) PyF.nan),
               ("date", Value.null)],
    id := none, lon := some (PyF.fin 50), lat := some PyF.nan,
    stale := cerbErrors checklistSchema
      [("loc", Value.point (PyF.fin 50) PyF.nan)] true }

/-- A Taxonomy chunk holding one ragged data row followed by one fully
valid data row (header `sci_name, primary_com_name`). -/
def c1chunk : List (Nat × List String) :=
  [(1, ["abc"]), (2, ["turdus migratorius", "american robin"])]

/-- The record state reached by the Migration-Checklist loop on the
canonical six-column date row, with the parsed year and day. -/
def c3StState (y d : Int) : MCState :=
  { fields := [("year", Value.int y), ("month", Value.int 1), ("day", Value.int d)],
    id := some "S1", lon := some (pyFloat (Value.str "50")),
    lat := some (pyFloat (Value.str "40")), stale := [] }

/-! ## Helper lemmas on field mappings -/

lemma find?_map_replace_self (k : String) (v : Value) (fs : Fields)
    (h : fs.any (fun p => p.1 == k) = true) :
    (fs.map (fun p => if p.1 == k then (k, v) else p)).find?
      (fun p => p.1 == k) = some (k, v) := by
  induction fs with
  | nil => simp at h
  | cons p rest ih =>
      simp only [List.any_cons, Bool.or_eq_true] at h
      by_cases hp : (p.1 == k) = true
      · rw [List.map_cons, if_pos hp]
        exact List.find?_cons_of_pos _ (by simp)
      · rw [List.map_cons, if_neg hp]
        calc (List.find? (fun p => p.1 == k)
                (p :: rest.map (fun p => if p.1 == k then (k, v) else p)))
            = List.find? (fun p => p.1 == k)
                (rest.map (fun p => if p.1 == k then (k, v) else p)) :=
              List.find?_cons_of_neg _ hp
          _ = some (k, v) := ih (h.resolve_left hp)

lemma find?_map_replace_ne (k k2 : String) (v : Value) (fs : Fields)
    (hne : k ≠ k2) :
    (fs.map (fun p => if p.1 == k then (k, v) else p)).find?
      (fun p => p.1 == k2) = fs.find? (fun p => p.1 == k2) := by
  induction fs with
  | nil => simp
  | cons p rest ih =>
      by_cases hp : (p.1 == k) = true
      · have hpk : p.1 = k := by simpa using hp
        have h1 : ¬ (((k, v) : String × Value).1 == k2) = true := by simpa using hne
        have h2 : ¬ (p.1 == k2) = true := by simpa [hpk] using hne
        rw [List.map_cons, if_pos hp]
        calc (List.find? (fun p => p.1 == k2)
                ((k, v) :: rest.map (fun p => if p.1 == k then (k, v) else p)))
            = List.find? (fun p => p.1 == k2)
                (rest.map (fun p => if p.1 == k then (k, v) else p)) :=
              List.find?_cons_of_neg _ h1
          _ = rest.find? (fun p => p.1 == k2) := ih
          _ = List.find? (fun p => p.1 == k2) (p :: rest) :=
              (@List.find?_cons_of_neg (String × Value)
                (fun q => q.1 == k2) p rest h2).symm
      · rw [List.map_cons, if_neg hp]
        by_cases hq : (p.1 == k2) = true
        · rw [@List.find?_cons_of_pos (String × Value) (fun q => q.1 == k2) p
                (rest.map (fun p => if p.1 == k then (k, v) else p)) hq,
              @List.find?_cons_of_pos (String × Value) (fun q => q.1 == k2) p rest hq]
        · calc (List.find? (fun p => p.1 == k2)
                  (p :: rest.map (fun p => if p.1 == k then (k, v) else p)))
              = List.find? (fun p => p.1 == k2)
                  (rest.map (fun p => if p.1 == k then (k, v) else p)) :=
                List.find?_cons_of_neg _ hq
            _ = rest.find? (fun p => p.1 == k2) := ih
            _ = List.find? (fun p => p.1 == k2) (p :: rest) :=
                (@List.find?_cons_of_neg (String × Value)
                  (fun q => q.1 == k2) p rest hq).symm

lemma getField_setField_self (fs : Fields) (k : String) (v : Value) :
    getField (setField fs k v) k = some v := by
  unfold setField getField
  by_cases h : fs.any (fun p => p.1 == k)
  · rw [if_pos h, find?_map_replace_self k v fs h]
    rfl
  · rw [if_neg h, List.find?_append]
    have hnone : fs.find? (fun p => p.1 == k) = none := by
      rw [List.find?_eq_none]
      intro x hx hxk
      exact h (List.any_eq_true.mpr ⟨x, hx, hxk⟩)
    rw [hnone]
    have hpos : (([(k, v)] : Fields).find? (fun p => p.1 == k)) = some (k, v) :=
      List.find?_cons_of_pos _ (by simp)
    rw [hpos]
    rfl

lemma getField_setField_of_ne (fs : Fields) (k k2 : String) (v : Value)
    (hne : k ≠ k2) : getField (setField fs k v) k2 = getField fs k2 := by
  unfold setField getField
  by_cases h : fs.any (fun p => p.1 == k)
  · rw [if_pos h, find?_map_replace_ne k k2 v fs hne]
  · rw [if_neg h, List.find?_append]
    have h1 : (([(k, v)] : Fields).find? (fun p => p.1 == k2)) = none := by
      rw [List.find?_eq_none]
      intro x hx hxk
      simp only [List.mem_singleton] at hx
      rw [hx] at hxk
      exact hne (by simpa using hxk)
    rw [h1]
    cases fs.find? (fun p => p.1 == k2) <;> rfl

lemma mem_of_getField {fs : Fields} {k : String} {v : Value}
    (h : getField fs k = some v) : (k, v) ∈ fs := by
  unfold getField at h
  rcases Option.map_eq_some'.mp h with ⟨p, hfind, hv⟩
  have hmem := List.mem_of_find?_eq_some hfind
  have hkey := List.find?_some hfind
  have hk : p.1 = k := by simpa using hkey
  have hp : p = (k, v) := by
    cases p with
    | mk a b =>
        simp only at hk hv
        rw [hk, hv]
  rwa [hp] at hmem

/-! ## Helper lemmas on coercion and the create loops -/

lemma lookupSchema_mem {sch : Schema} {h : String} {fe : FieldSchema}
    (hl : lookupSchema sch h = some fe) : ∃ k, (k, fe) ∈ sch := by
  unfold lookupSchema at hl
  rcases Option.map_eq_some'.mp hl with ⟨p, hfind, hfe⟩
  exact ⟨p.1, by
    have := List.mem_of_find?_eq_some hfind
    cases p with
    | mk a b => simp only at hfe; rwa [hfe] at this⟩

lemma set_field_by_schema_ok (sch : Schema)
    (hnd : ∀ p ∈ sch, p.2.type ≠ SType.datetime)
    (fields : Fields) (h : String) (v : Value) :
    ∃ fs2, set_field_by_schema sch fields h v = .ok fs2 := by
  unfold set_field_by_schema
  cases hlk : lookupSchema sch h with
  | none => exact ⟨fields, by simp [DISABLE_SCHEMA_MATCH]⟩
  | some fe =>
      have hty : fe.type ≠ SType.datetime := by
        rcases lookupSchema_mem hlk with ⟨k, hk⟩
        exact hnd (k, fe) hk
      cases h2 : fe.type <;> simp_all <;> (repeat' split) <;> exact ⟨_, rfl⟩

lemma taxStep_ok (hdr : List String) (pos : Nat) (cell : String)
    (st : TaxState) (hpos : pos < hdr.length) :
    ∃ st2, taxStep hdr pos cell st = .ok st2 := by
  unfold taxStep
  have hget : hdr[pos]? = some hdr[pos] := List.getElem?_eq_getElem hpos
  cases hm : map_header taxonomyMap hdr[pos] with
  | none => exact ⟨st, by simp [hget, hm]⟩
  | some header =>
      by_cases h1 : strTrim header = ""
      · exact ⟨st, by simp [hget, hm, h1]⟩
      · by_cases h2 : lowerStr header = "sci_name"
        · exact ⟨if is_empty_str (.str cell) then st
                 else { st with id := some (lowerStr cell) },
            by simp [hget, hm, h1, h2]⟩
        · rcases set_field_by_schema_ok taxonomySchema (by decide)
            st.fields header (.str cell) with ⟨fs2, hok⟩
          exact ⟨{ st with fields := fs2 }, by simp [hget, hm, h1, h2, hok]⟩

lemma taxLoop_ok (hdr : List String) (row : List String) (pos : Nat)
    (st : TaxState) (hlen : pos + row.length ≤ hdr.length) :
    ∃ st2, taxLoop hdr row pos st = .ok st2 := by
  induction row generalizing pos st with
  | nil => exact ⟨st, rfl⟩
  | cons c rest ih =>
      have hpos : pos < hdr.length := by
        simp only [List.length_cons] at hlen
        omega
      rcases taxStep_ok hdr pos c st hpos with ⟨st2, hstep⟩
      have hrest : (pos + 1) + rest.length ≤ hdr.length := by
        simp only [List.length_cons] at hlen
        omega
      rcases ih (pos + 1) st2 hrest with ⟨st3, hloop⟩
      exact ⟨st3, by unfold taxLoop; rw [hstep]; exact hloop⟩

lemma mcStep_ok (hdr : List String) (pos : Nat) (cell : String)
    (st : MCState) (hpos : pos < hdr.length) :
    ∃ st2, mcStep hdr pos cell st = .ok st2 := by
  unfold mcStep
  have hget : hdr[pos]? = some hdr[pos] := List.getElem?_eq_getElem hpos
  cases hm : map_header checklistMap hdr[pos] with
  | none =>
      by_cases hc : could_be_int (.str cell)
      · by_cases hv : 0 < pyInt (.str cell)
        · exact ⟨{ st with fields := setField st.fields (sanitize_key (hdr[pos])) (Value.int (pyInt (Value.str cell))) }, by simp [hget, hm, hc, hv]⟩
        · exact ⟨st, by simp [hget, hm, hc, hv]⟩
      · exact ⟨st, by simp [hget, hm, hc]⟩
  | some header =>
      by_cases h1 : strTrim header = ""
      · exact ⟨st, by simp [hget, hm, h1]⟩
      · by_cases h2 : lowerStr header = "sampling_event_id"
        · exact ⟨if is_empty_str (.str cell) then st
                 else { st with id := some cell },
            by simp [hget, hm, h1, h2]⟩
        · by_cases h3 : lowerStr header = "longitude"
          · exact ⟨if could_be_float (.str cell) then
                    { st with lon := some (pyFloat (.str cell)) } else st,
              by simp [hget, hm, h1, h2, h3]⟩
          · by_cases h4 : lowerStr header = "latitude"
            · exact ⟨if could_be_float (.str cell) then
                      { st with lat := some (pyFloat (.str cell)) } else st,
                by simp [hget, hm, h1, h2, h3, h4]⟩
            · rcases set_field_by_schema_ok checklistSchema (by decide)
                st.fields header (.str cell) with ⟨fs2, hok⟩
              exact ⟨{ st with fields := fs2 },
                by simp [hget, hm, h1, h2, h3, h4, hok]⟩

lemma mcStep_indexError (hdr : List String) (pos : Nat) (cell : String)
    (st : MCState) (hpos : hdr.length ≤ pos) :
    mcStep hdr pos cell st = .error .indexError := by
  unfold mcStep
  rw [List.getElem?_eq_none hpos]

lemma coreStep_ok (hdr : List String) (pos : Nat) (cell : String)
    (st : CoreState) (hpos : pos < hdr.length) :
    ∃ st2, coreStep hdr pos cell st = .ok st2 := by
  unfold coreStep
  have hget : hdr[pos]? = some hdr[pos] := List.getElem?_eq_getElem hpos
  cases hm : map_header coreMap hdr[pos] with
  | none =>
      by_cases hc : could_be_number (.str cell)
      · exact ⟨{ st with fields := setField st.fields (sanitize_key (hdr[pos])) (Value.num (pyFloat (Value.str cell))) }, by simp [hget, hm, hc]⟩
      · exact ⟨{ st with fields := setField st.fields (sanitize_key (hdr[pos])) Value.null }, by simp [hget, hm, hc]⟩
  | some header =>
      by_cases h1 : strTrim header = ""
      · exact ⟨st, by simp [hget, hm, h1]⟩
      · by_cases h2 : lowerStr header = "sampling_event_id"
        · exact ⟨if is_empty_str (.str cell) then st
                 else { st with id := some cell },
            by simp [hget, hm, h1, h2]⟩
        · rcases set_field_by_schema_ok coreSchema (by decide)
            st.fields header (.str cell) with ⟨fs2, hok⟩
          exact ⟨{ st with fields := fs2 }, by simp [hget, hm, h1, h2, hok]⟩

lemma coreStep_indexError (hdr : List String) (pos : Nat) (cell : String)
    (st : CoreState) (hpos : hdr.length ≤ pos) :
    coreStep hdr pos cell st = .error .indexError := by
  unfold coreStep
  rw [List.getElem?_eq_none hpos]

lemma coreLoop_ok (hdr : List String) (row : List String) (pos : Nat)
    (st : CoreState) (hlen : pos + row.length ≤ hdr.length) :
    ∃ st2, coreLoop hdr row pos st = .ok st2 := by
  induction row generalizing pos st with
  | nil => exact ⟨st, rfl⟩
  | cons c rest ih =>
      have hpos : pos < hdr.length := by
        simp only [List.length_cons] at hlen
        omega
      rcases coreStep_ok hdr pos c st hpos with ⟨st2, hstep⟩
      have hrest : (pos + 1) + rest.length ≤ hdr.length := by
        simp only [List.length_cons] at hlen
        omega
      rcases ih (pos + 1) st2 hrest with ⟨st3, hloop⟩
      exact ⟨st3, by unfold coreLoop; rw [hstep]; exact hloop⟩

lemma mcLoop_long (hdr : List String) (row : List String) (pos : Nat)
    (st : MCState) (hlen : hdr.length < pos + row.length)
    (hpos : pos ≤ hdr.length) :
    mcLoop hdr row pos st = .error .indexError := by
  induction row generalizing pos st with
  | nil => simp only [List.length_nil] at hlen; omega
  | cons c rest ih =>
      by_cases hp : pos < hdr.length
      · rcases mcStep_ok hdr pos c st hp with ⟨st2, hstep⟩
        have hih := ih (pos + 1) st2
          (by simp only [List.length_cons] at hlen; omega) (by omega)
        unfold mcLoop
        rw [hstep]
        exact hih
      · have heq : hdr.length ≤ pos := by omega
        unfold mcLoop
        rw [mcStep_indexError hdr pos c st heq]

lemma coreLoop_long (hdr : List String) (row : List String) (pos : Nat)
    (st : CoreState) (hlen : hdr.length < pos + row.length)
    (hpos : pos ≤ hdr.length) :
    coreLoop hdr row pos st = .error .indexError := by
  induction row generalizing pos st with
  | nil => simp only [List.length_nil] at hlen; omega
  | cons c rest ih =>
      by_cases hp : pos < hdr.length
      · rcases coreStep_ok hdr pos c st hp with ⟨st2, hstep⟩
        have hih := ih (pos + 1) st2
          (by simp only [List.length_cons] at hlen; omega) (by omega)
        unfold coreLoop
        rw [hstep]
        exact hih
      · have heq : hdr.length ≤ pos := by omega
        unfold coreLoop
        rw [coreStep_indexError hdr pos c st heq]

/-! ## Helper lemmas on the checklist post-processing -/

lemma isNanF_false {f : PyF} (h : f ≠ PyF.nan) : isNanF f = false := by
  cases f with
  | nan => exact absurd rfl h
  | fin q => rfl
  | inf => rfl
  | ninf => rfl

lemma pass_coord_eq (f : PyF) (b : ℚ) :
    (pyInRange f b || isNanF f)
      = !(pyLt f (PyF.fin (-b)) || pyLt (PyF.fin b) f) := by
  cases f with
  | fin q =>
      simp only [pyInRange, pyLt, isNanF, Bool.or_false]
      by_cases h1 : q < -b
      · have hn : ¬ (-b ≤ q ∧ q ≤ b) := fun hc => absurd hc.1 (not_le.mpr h1)
        simp [h1, hn]
      · by_cases h2 : b < q
        · have hn : ¬ (-b ≤ q ∧ q ≤ b) := fun hc => absurd hc.2 (not_le.mpr h2)
          simp [h1, h2, hn]
        · have hp : (-b ≤ q ∧ q ≤ b) := ⟨not_lt.mp h1, not_lt.mp h2⟩
          simp [h1, h2, hp]
  | nan => rfl
  | inf => simp [pyInRange, pyLt, isNanF]
  | ninf => simp [pyInRange, pyLt, isNanF]

lemma sourceLocDesc_eq_source (lon lat : Option PyF) :
    sourceLocDesc lon lat =
      (if is_valid_coordinate_pair lon lat then
        Value.point (lon.getD (PyF.fin 0)) (lat.getD (PyF.fin 0)) else Value.null) := by
  cases lon with
  | none => cases lat <;> rfl
  | some lo =>
      cases lat with
      | none => rfl
      | some la =>
          simp only [sourceLocDesc, is_valid_coordinate_pair, Option.getD_some]
          rw [pass_coord_eq la 90, pass_coord_eq lo 180]
          cases hA : pyLt la (PyF.fin (-90)) || pyLt (PyF.fin 90) la with
          | true => simp [hA]
          | false =>
              cases hB : pyLt lo (PyF.fin (-180)) || pyLt (PyF.fin 180) lo with
              | true => simp [hA, hB]
              | false => simp [hA, hB]

lemma mcFinalize_ok_parts {st st2 : MCState} (h : mcFinalize st = .ok st2) :
    st2.lon = st.lon ∧ st2.lat = st.lat ∧
    getField st2.fields "loc" =
      some (if is_valid_coordinate_pair st.lon st.lat then
        Value.point (st.lon.getD (PyF.fin 0)) (st.lat.getD (PyF.fin 0)) else Value.null) ∧
    getField st2.fields "date" =
      some ((gen_date (setField st.fields "loc"
        (if is_valid_coordinate_pair st.lon st.lat then
          Value.point (st.lon.getD (PyF.fin 0)) (st.lat.getD (PyF.fin 0)) else Value.null))).toOption.getD .null) := by
  unfold mcFinalize at h
  dsimp only at h
  cases hg : gen_date (setField st.fields "loc"
      (if is_valid_coordinate_pair st.lon st.lat then
        Value.point (st.lon.getD (PyF.fin 0)) (st.lat.getD (PyF.fin 0)) else Value.null)) with
  | error e => rw [hg] at h; exact absurd h (by simp)
  | ok dv =>
      rw [hg] at h
      simp only [Except.ok.injEq] at h
      subst h
      refine ⟨rfl, rfl, ?_, ?_⟩
      · rw [getField_setField_of_ne _ "date" "loc" _ (by decide),
          getField_setField_self]
      · rw [getField_setField_self]
        simp [Except.toOption]

lemma mcCreate_ok_elim {hdr row : List String} {st2 : MCState}
    (h : mcCreate (some hdr) row = .ok st2) :
    ∃ st, mcLoop hdr row 0
      { fields := [], id := none, lon := none, lat := none, stale := [] } = .ok st ∧
      mcFinalize st = .ok st2 := by
  have h2 : (match mcLoop hdr row 0
      { fields := [], id := none, lon := none, lat := none, stale := [] } with
    | Except.error e => (Except.error e : Except PyErr MCState)
    | Except.ok st => mcFinalize st) = .ok st2 := h
  cases hl : mcLoop hdr row 0
      { fields := [], id := none, lon := none, lat := none, stale := [] } with
  | error e => rw [hl] at h2; exact absurd h2 (by simp)
  | ok st => rw [hl] at h2; exact ⟨st, rfl, h2⟩

lemma cerbValidate_false_of_null_loc {fields : Fields}
    (h : ("loc", Value.null) ∈ fields) :
    cerbValidate checklistSchema fields true = false := by
  unfold cerbValidate
  have hall : fields.all (fun q =>
      match lookupSchema checklistSchema q.1 with
      | some fe =>
          match q.2 with
          | .null => fe.nullable
          | v => typeMatches fe.type v
      | none => true) = false := by
    rw [Bool.eq_false_iff]
    intro hall
    have := List.all_eq_true.mp hall ("loc", Value.null) h
    simp [lookupSchema, checklistSchema, List.find?] at this
  rw [hall, Bool.and_false]

lemma gen_date_null_of_invalid {fields : Fields}
    (hne : fields.isEmpty = false)
    (hv : cerbValidate checklistSchema fields true = false) :
    gen_date fields = .ok .null := by
  unfold gen_date
  rw [hne, hv]
  simp

lemma setField_isEmpty_false (fs : Fields) (k : String) (v : Value) :
    (setField fs k v).isEmpty = false := by
  unfold setField
  split
  · cases fs with
    | nil => simp_all
    | cons a l => simp
  · cases fs <;> simp

lemma cerbValidate_false_of_no_year {fields : Fields}
    (h : fields.any (fun q => q.1 == "year") = false) :
    cerbValidate checklistSchema fields true = false := by
  unfold cerbValidate
  have hall : checklistSchema.all
      (fun p => !p.2.required || fields.any (fun q => q.1 == p.1)) = false := by
    rw [Bool.eq_false_iff]
    intro hall
    have hmem : ("year",
        ({ type := .integer, nullable := false, required := true } : FieldSchema))
        ∈ checklistSchema := by decide
    have := List.all_eq_true.mp hall _ hmem
    rw [h] at this
    simp at this
  rw [hall, Bool.false_and]

lemma mcFinalize_ok_of_gen_date (st : MCState) {dv : Value}
    (hgd : gen_date (setField st.fields "loc"
      (if is_valid_coordinate_pair st.lon st.lat then
        Value.point (st.lon.getD (PyF.fin 0)) (st.lat.getD (PyF.fin 0)) else Value.null)) = .ok dv) :
    ∃ st2, mcFinalize st = .ok st2 := by
  unfold mcFinalize
  dsimp only
  rw [hgd]
  exact ⟨_, rfl⟩

lemma mcCreate_build {hdr row : List String} {st0 st2 : MCState}
    (hl : mcLoop hdr row 0
      { fields := [], id := none, lon := none, lat := none, stale := [] } = .ok st0)
    (hf : mcFinalize st0 = .ok st2) :
    mcCreate (some hdr) row = .ok st2 := by
  unfold mcCreate
  dsimp only
  rw [hl]
  exact hf

lemma mcStep_lon0 (cell : String) (st : MCState) :
    mcStep ["longitude", "latitude"] 0 cell st
      = .ok (if could_be_float (.str cell) then
          { st with lon := some (pyFloat (.str cell)) } else st) := rfl

lemma mcStep_lat1 (cell : String) (st : MCState) :
    mcStep ["longitude", "latitude"] 1 cell st
      = .ok (if could_be_float (.str cell) then
          { st with lat := some (pyFloat (.str cell)) } else st) := rfl

/-! ## Claim theorems -/

/-- C2 counterexample: the cell `"nan"` is float-coercible —
`float('nan')` succeeds — and every Python comparison against nan is
false, so `is_valid_coordinate_pair` never rejects it: on the row
`longitude="50", latitude="nan"`, `create` stores a *non-null* GeoJSON
point whose latitude is nan, outside [-90, 90], where the claim demands
exactly null (`specLoc` is the claim's description of the loc value). -/
theorem c2_counterexample :
    (mcCreate (some ["longitude", "latitude"]) ["50", "nan"] = .ok c2St
      ∧ c2St.lon = some (PyF.fin 50) ∧ c2St.lat = some PyF.nan
      ∧ getField c2St.fields "loc" = some (Value.point (PyF.fin 50) PyF.nan)
      ∧ specLoc c2St.lon c2St.lat = Value.null)
    ∧ Value.point (PyF.fin 50) PyF.nan ≠ Value.null :=
  ⟨⟨rfl, rfl, rfl, rfl, rfl⟩, by decide⟩

/-- C2 amended: for every Migration-Checklist row, the `loc` field
produced by `create` is the *corrected* description `sourceLocDesc`: a
GeoJSON point in longitude-then-latitude order when both coordinates are
present (float-coercible) and each is either finite within its inclusive
range or nan — a nan coordinate passes Python's range checks vacuously —
and null otherwise (missing, infinite, or finite out of range).  The
second conjunct instantiates this on the canonical two-column row,
connecting the accumulated pair to `float()`-parsing of the raw cells; the
third shows the corrected description agrees with the spec's `specLoc`
whenever neither coordinate is nan, isolating the divergence to the nan
cases. -/
theorem c2_amended :
    (∀ hdr row : List String,
      (mcCreate (some hdr) row).map (fun st => getField st.fields "loc")
        = (mcCreate (some hdr) row).map (fun st => some (sourceLocDesc st.lon st.lat)))
    ∧ (∀ lon lat : String, ∃ st,
        mcCreate (some ["longitude", "latitude"]) [lon, lat] = .ok st
        ∧ st.lon = parsePyFloat lon ∧ st.lat = parsePyFloat lat
        ∧ getField st.fields "loc"
            = some (sourceLocDesc (parsePyFloat lon) (parsePyFloat lat)))
    ∧ (∀ lon lat : Option PyF, lon ≠ some PyF.nan → lat ≠ some PyF.nan →
        sourceLocDesc lon lat = specLoc lon lat) := by
  refine ⟨?_, ?_, ?_⟩
  · intro hdr row
    cases h : mcCreate (some hdr) row with
    | error e => rfl
    | ok st =>
        rcases mcCreate_ok_elim h with ⟨st0, hl, hf⟩
        rcases mcFinalize_ok_parts hf with ⟨hlon, hlat, hloc, _⟩
        simp only [Except.map]
        rw [hloc, hlon, hlat, sourceLocDesc_eq_source]
  · intro lonS latS
    have hstep : mcLoop ["longitude", "latitude"] [lonS, latS] 0
        { fields := [], id := none, lon := none, lat := none, stale := [] }
        = .ok { fields := [], id := none, lon := parsePyFloat lonS,
                lat := parsePyFloat latS, stale := [] } := by
      cases hp : parsePyFloat lonS <;> cases hq : parsePyFloat latS <;>
      · have e1 : could_be_float (Value.str lonS) = ((parsePyFloat lonS).isSome) := rfl
        have e2 : could_be_float (Value.str latS) = ((parsePyFloat latS).isSome) := rfl
        have f1 : pyFloat (Value.str lonS) = (parsePyFloat lonS).getD (PyF.fin 0) := rfl
        have f2 : pyFloat (Value.str latS) = (parsePyFloat latS).getD (PyF.fin 0) := rfl
        simp [mcLoop, mcStep_lon0, mcStep_lat1, e1, e2, f1, f2, hp, hq]
    have hgd : gen_date (setField ([] : Fields) "loc"
        (if is_valid_coordinate_pair (parsePyFloat lonS) (parsePyFloat latS) then
          Value.point ((parsePyFloat lonS).getD (PyF.fin 0))
            ((parsePyFloat latS).getD (PyF.fin 0))
        else Value.null)) = .ok .null :=
      gen_date_null_of_invalid rfl (cerbValidate_false_of_no_year rfl)
    obtain ⟨st2, hfin⟩ := mcFinalize_ok_of_gen_date
      { fields := [], id := none, lon := parsePyFloat lonS, lat := parsePyFloat latS, stale := [] } hgd
    rcases mcFinalize_ok_parts hfin with ⟨hlon, hlat, hloc, _⟩
    refine ⟨st2, mcCreate_build hstep hfin, hlon, hlat, ?_⟩
    rw [hloc, sourceLocDesc_eq_source]
  · intro lon lat hlon hlat
    cases lon with
    | none => cases lat <;> rfl
    | some lo =>
        cases lat with
        | none => rfl
        | some la =>
            have h1 : isNanF lo = false :=
              isNanF_false (fun hc => hlon (by rw [hc]))
            have h2 : isNanF la = false :=
              isNanF_false (fun hc => hlat (by rw [hc]))
            simp [sourceLocDesc, specLoc, h1, h2]

/-- Witness for C2 amended at concrete inputs: the out-of-range row
`longitude=200, latitude=40` (loc comes out as the corrected description,
which is null there), and the agreement of corrected and spec
descriptions at the finite in-range pair (50, 40). -/
theorem c2_amended_witness :
    (∃ st, mcCreate (some ["longitude", "latitude"]) ["200", "40"] = .ok st
      ∧ getField st.fields "loc"
          = some (sourceLocDesc (parsePyFloat "200") (parsePyFloat "40")))
    ∧ sourceLocDesc (some (PyF.fin 50)) (some (PyF.fin 40))
        = specLoc (some (PyF.fin 50)) (some (PyF.fin 40)) := by
  constructor
  · obtain ⟨st, hok, hlon, hlat, hloc⟩ := c2_amended.2.1 "200" "40"
    exact ⟨st, hok, hloc⟩
  · exact c2_amended.2.2 (some (PyF.fin 50)) (some (PyF.fin 40))
      (by decide) (by decide)

/-- C10: for every Migration-Checklist row accepted by `create`, a null
`loc` field forces a null computed `date` field: the date is generated only
after the full mapping (including the non-nullable `loc`) passes schema
validation, so `gen_date` bails out and leaves the date null. -/
theorem c10_loc_null_date_null (hdr row : List String) (st : MCState)
    (h : mcCreate (some hdr) row = .ok st)
    (hloc : getField st.fields "loc" = some Value.null) :
    getField st.fields "date" = some Value.null := by
  rcases mcCreate_ok_elim h with ⟨st0, hl, hf⟩
  rcases mcFinalize_ok_parts hf with ⟨hlon, hlat, hloc2, hdate⟩
  rw [hloc2] at hloc
  have hlocv : (if is_valid_coordinate_pair st0.lon st0.lat then
      Value.point (st0.lon.getD (PyF.fin 0)) (st0.lat.getD (PyF.fin 0)) else Value.null)
      = Value.null := by
    exact Option.some.inj hloc
  rw [hlocv] at hdate
  have hmem : ("loc", Value.null) ∈ setField st0.fields "loc" Value.null :=
    mem_of_getField (getField_setField_self st0.fields "loc" Value.null)
  have hgd : gen_date (setField st0.fields "loc" Value.null) = .ok .null :=
    gen_date_null_of_invalid (setField_isEmpty_false _ _ _)
      (cerbValidate_false_of_null_loc hmem)
  rw [hgd] at hdate
  simpa using hdate

/-- Witness for C10 at the concrete one-column row `longitude=200`. -/
theorem c10_loc_null_date_null_witness :
    ∃ st, mcCreate (some ["longitude"]) ["200"] = Except.ok st
      ∧ getField st.fields "date" = some Value.null := by
  refine ⟨c10St, by rfl, ?_⟩
  exact c10_loc_null_date_null ["longitude"] ["200"] c10St (by rfl) (by rfl)

/-- C1: evaluating the chunk processor at a failing input.  In a Taxonomy
chunk whose first data row is ragged, `create` raises the caught
`InvalidRecordLength`, the handler logs and bare-returns `None`, and the
chunk loop's `valid, invalid = process_row(data)` unpacking of `None`
raises `TypeError`: the whole chunk aborts before any flush, although the
second row of the chunk alone would have produced a valid record.  This
contradicts the claim that a malformed row never aborts the chunk. -/
theorem c1_chunk_abort :
    syncprocessChunkTax (some ["sci_name", "primary_com_name"]) 3 0 c1chunk [] []
      = Except.error PyErr.typeError
    ∧ (∃ rec, processRowTax (some ["sci_name", "primary_com_name"]) 3 2
        ["turdus migratorius", "american robin"] 0 = .ok (some (some rec, none))) :=
  ⟨rfl, ⟨_, rfl⟩⟩

/-- C3 counterexample: the row with `year=2021, day=400` (all other fields
valid) yields a *non-null* computed date — February 4th 2022 — because
`datetime(2021,1,1) + timedelta(days=399)` rolls over into the next year
instead of raising; the claim says the date must be null. -/
theorem c3_counterexample :
    (∃ st, mcCreate (some c3hdr) ["S1", "40", "50", "2021", "1", "400"] = .ok st
      ∧ getField st.fields "date" = some (Value.date (ordinalYMD 2022 2 4)))
    ∧ Value.date (ordinalYMD 2022 2 4) ≠ Value.null :=
  ⟨⟨_, rfl, rfl⟩, by decide⟩

/-- C4: evaluating the code at the spec's scenario row
(`longitude=200, latitude=40`, all other mapped fields valid).  `create`
produces `loc = null` with every other mapped field populated, but
`validate()` then *fails* — `loc` is declared non-nullable — so the record
is routed to the invalid batch, not the valid one as the claim states. -/
theorem c4_eval :
    ∃ st, mcCreate (some c4hdr) c4row = .ok st
      ∧ st.id = some "S1"
      ∧ getField st.fields "loc" = some Value.null
      ∧ getField st.fields "loc_id" = some (Value.str "L1")
      ∧ getField st.fields "year" = some (Value.int 2015)
      ∧ getField st.fields "month" = some (Value.int 3)
      ∧ getField st.fields "day" = some (Value.int 2)
      ∧ (getField st.fields "time").isSome = true
      ∧ getField st.fields "country" = some (Value.str "United States")
      ∧ getField st.fields "state_province" = some (Value.str "New York")
      ∧ getField st.fields "county" = some (Value.str "Suffolk")
      ∧ getField st.fields "count_type" = some (Value.str "P21")
      ∧ (getField st.fields "effort_hrs").isSome = true
      ∧ (getField st.fields "effort_distance_km").isSome = true
      ∧ (getField st.fields "effort_area_ha").isSome = true
      ∧ getField st.fields "observer_id" = some (Value.str "obsr123")
      ∧ getField st.fields "number_observers" = some (Value.int 2)
      ∧ getField st.fields "group_id" = some (Value.str "G1")
      ∧ getField st.fields "primary_checklist_flag" = some (Value.bool true)
      ∧ mcValidateB st = false
      ∧ (∃ inv, processRowMC (some c4hdr) 3 1 c4row 0 = .ok (some (none, some inv))) :=
  ⟨_, rfl, rfl, rfl, rfl, rfl, rfl, rfl, rfl, rfl, rfl, rfl, rfl, rfl, rfl,
   rfl, rfl, rfl, rfl, rfl, rfl, ⟨_, rfl⟩⟩

/-- C5 counterexample: an unmapped Migration-Checklist column whose value
fails the numeric probe is silently dropped — the sanitized field is absent
from the mapping, not kept with a null value as the claim states.  (The
Migration-Core variant does keep it as null.) -/
theorem c5_counterexample :
    (∃ st, mcCreate (some ["nlcd01"]) ["abc"] = .ok st
      ∧ getField st.fields "nlcd01" = none)
    ∧ (∃ st, coreCreate (some ["nlcd01"]) ["abc"] = .ok st
      ∧ getField st.fields "nlcd01" = some Value.null) :=
  ⟨⟨_, rfl, rfl⟩, ⟨_, rfl, rfl⟩⟩

/-- C6 counterexample: a Migration-Checklist row longer than its header
does raise — `header_row[position]` throws IndexError at the first excess
column — contradicting the claim that the non-Taxonomy variants succeed on
rows longer than the header. -/
theorem c6_counterexample :
    mcCreate (some ["year"]) ["1", "2"] = Except.error PyErr.indexError := rfl

/-- C7 counterexample: a string-typed field stores the *raw* value
`" x "`, not the trimmed `"x"` the claim describes. -/
theorem c7_counterexample :
    set_field_by_schema checklistSchema [] "country" (Value.str " x ")
      = .ok [("country", Value.str " x ")]
    ∧ Value.str " x " ≠ Value.str (strTrim " x ") :=
  ⟨rfl, by decide⟩

/-- C8 counterexample: datetime coercion is not idempotent — coercing the
string `"Jan 2020"` stores a datetime, but re-coercing that stored datetime
raises TypeError, because `could_be_datetime` accepts datetime instances
while `datetime.strptime` demands a string. -/
theorem c8_counterexample :
    set_field_by_schema dtSchema [] "d" (Value.str "Jan 2020")
      = .ok [("d", Value.date 737425)]
    ∧ set_field_by_schema dtSchema [("d", Value.date 737425)] "d"
        (Value.date 737425) = .error PyErr.typeError :=
  ⟨rfl, rfl⟩

/-- C9 counterexample: a Taxonomy row with a blank `sci_name` produces an
invalid record whose error payload is the *empty* dict (the validator never
ran), yet it passes its own schema validation and is queued — and the
schema also accepts a source-type tag that is not a known record type.
Both contradict the claim's "non-empty payload" and "known source-type"
requirements. -/
theorem c9_counterexample :
    processRowTax (some ["sci_name", "primary_com_name"]) 3 2 ["", "Unknown"] 0
      = .ok (some (none, some (invalidRecordFields 0 [] "TaxonomyRecord" (some 2))))
    ∧ invalidValidateB (invalidRecordFields 0 [] "Bogus" (some 2)) = true
    ∧ ¬ ("Bogus" ∈ knownRecordTypeNames) :=
  ⟨rfl, rfl, by decide⟩

lemma gen_date_no_lenerr (fields : Fields) :
    gen_date fields ≠ .error .invalidRecordLength := by
  unfold gen_date
  repeat' split
  all_goals simp

lemma mcStep_no_lenerr (hdr : List String) (pos : Nat) (cell : String)
    (st : MCState) : mcStep hdr pos cell st ≠ .error .invalidRecordLength := by
  by_cases hp : pos < hdr.length
  · rcases mcStep_ok hdr pos cell st hp with ⟨st2, hok⟩
    rw [hok]
    simp
  · rw [mcStep_indexError hdr pos cell st (by omega)]
    simp

lemma mcLoop_no_lenerr (hdr : List String) (row : List String) (pos : Nat)
    (st : MCState) : mcLoop hdr row pos st ≠ .error .invalidRecordLength := by
  induction row generalizing pos st with
  | nil => simp [mcLoop]
  | cons c rest ih =>
      unfold mcLoop
      cases hs : mcStep hdr pos c st with
      | error e =>
          have := mcStep_no_lenerr hdr pos c st
          rw [hs] at this
          simpa using fun hcontra => this (by rw [hcontra])
      | ok st2 => exact ih (pos + 1) st2

lemma mcFinalize_no_lenerr (st : MCState) :
    mcFinalize st ≠ .error .invalidRecordLength := by
  unfold mcFinalize
  dsimp only
  cases hg : gen_date (setField st.fields "loc"
      (if is_valid_coordinate_pair st.lon st.lat then
        Value.point (st.lon.getD (PyF.fin 0)) (st.lat.getD (PyF.fin 0)) else Value.null)) with
  | error e =>
      have := gen_date_no_lenerr (setField st.fields "loc"
        (if is_valid_coordinate_pair st.lon st.lat then
          Value.point (st.lon.getD (PyF.fin 0)) (st.lat.getD (PyF.fin 0)) else Value.null))
      rw [hg] at this
      simpa using fun hcontra => this (by rw [hcontra])
  | ok dv => simp

lemma coreStep_no_lenerr (hdr : List String) (pos : Nat) (cell : String)
    (st : CoreState) : coreStep hdr pos cell st ≠ .error .invalidRecordLength := by
  by_cases hp : pos < hdr.length
  · rcases coreStep_ok hdr pos cell st hp with ⟨st2, hok⟩
    rw [hok]
    simp
  · rw [coreStep_indexError hdr pos cell st (by omega)]
    simp

lemma coreLoop_no_lenerr (hdr : List String) (row : List String) (pos : Nat)
    (st : CoreState) : coreLoop hdr row pos st ≠ .error .invalidRecordLength := by
  induction row generalizing pos st with
  | nil => simp [coreLoop]
  | cons c rest ih =>
      unfold coreLoop
      cases hs : coreStep hdr pos c st with
      | error e =>
          have := coreStep_no_lenerr hdr pos c st
          rw [hs] at this
          simpa using fun hcontra => this (by rw [hcontra])
      | ok st2 => exact ih (pos + 1) st2

/-- C6 amended: only the Taxonomy variant performs the length check —
`create` raises the length-mismatch error exactly when row and header
lengths differ, and given equal lengths it succeeds.  The Checklist and
Core variants never raise a length-mismatch error, but they do not succeed
on every ragged row either: a row *longer* than the header raises
IndexError at the first excess column; a Core row no longer than the
header always succeeds (rows shorter than the header are tolerated). -/
theorem c6_amended :
    (∀ hdr row : List String,
      taxCreate (some hdr) row = .error .invalidRecordLength
        ↔ hdr.length ≠ row.length)
    ∧ (∀ hdr row : List String,
        mcCreate (some hdr) row ≠ .error .invalidRecordLength)
    ∧ (∀ hdr row : List String,
        coreCreate (some hdr) row ≠ .error .invalidRecordLength)
    ∧ (∀ hdr row : List String, hdr.length < row.length →
        mcCreate (some hdr) row = .error .indexError)
    ∧ (∀ hdr row : List String, hdr.length < row.length →
        coreCreate (some hdr) row = .error .indexError)
    ∧ (∀ hdr row : List String, row.length ≤ hdr.length →
        ∃ st, coreCreate (some hdr) row = .ok st) := by
  refine ⟨?_, ?_, ?_, ?_, ?_, ?_⟩
  · intro hdr row
    constructor
    · intro h
      intro hlen
      unfold taxCreate at h
      dsimp only at h
      rw [if_neg (by omega)] at h
      rcases taxLoop_ok hdr row 0 { fields := [], id := none } (by omega) with ⟨st2, hok⟩
      rw [hok] at h
      simp at h
    · intro hlen
      unfold taxCreate
      dsimp only
      rw [if_pos (by omega)]
  · intro hdr row
    unfold mcCreate
    dsimp only
    cases hl : mcLoop hdr row 0
        { fields := [], id := none, lon := none, lat := none, stale := [] } with
    | error e =>
        have := mcLoop_no_lenerr hdr row 0
          { fields := [], id := none, lon := none, lat := none, stale := [] }
        rw [hl] at this
        simpa using fun hcontra => this (by rw [hcontra])
    | ok st => exact mcFinalize_no_lenerr st
  · intro hdr row
    unfold coreCreate
    dsimp only
    exact coreLoop_no_lenerr hdr row 0 { fields := [], id := none }
  · intro hdr row hlen
    unfold mcCreate
    dsimp only
    rw [mcLoop_long hdr row 0 _ (by omega) (by omega)]
  · intro hdr row hlen
    unfold coreCreate
    dsimp only
    exact coreLoop_long hdr row 0 _ (by omega) (by omega)
  · intro hdr row hlen
    unfold coreCreate
    dsimp only
    exact coreLoop_ok hdr row 0 _ (by omega)

/-- Witness for C6 at concrete rows: a ragged Taxonomy row raises the
length error, a matching one does not; a long Checklist row raises
IndexError; a short Core row succeeds. -/
theorem c6_amended_witness :
    taxCreate (some ["sci_name", "primary_com_name"]) ["a"]
      = .error .invalidRecordLength
    ∧ mcCreate (some ["year", "month"]) ["1", "2", "3"] = .error .indexError
    ∧ (∃ st, coreCreate (some ["loc_id", "bcr"]) ["L1"] = .ok st) := by
  refine ⟨?_, ?_, ?_⟩
  · exact (c6_amended.1 ["sci_name", "primary_com_name"] ["a"]).mpr (by decide)
  · exact c6_amended.2.2.2.1 ["year", "month"] ["1", "2", "3"] (by decide)
  · exact c6_amended.2.2.2.2.2 ["loc_id", "bcr"] ["L1"] (by decide)

lemma mcFinalize_preserves {st st2 : MCState} (h : mcFinalize st = .ok st2)
    (k : String) (h1 : k ≠ "loc") (h2 : k ≠ "date") :
    getField st2.fields k = getField st.fields k := by
  unfold mcFinalize at h
  dsimp only at h
  cases hg : gen_date (setField st.fields "loc"
      (if is_valid_coordinate_pair st.lon st.lat then
        Value.point (st.lon.getD (PyF.fin 0)) (st.lat.getD (PyF.fin 0)) else Value.null)) with
  | error e => rw [hg] at h; exact absurd h (by simp)
  | ok dv =>
      rw [hg] at h
      simp only [Except.ok.injEq] at h
      subst h
      rw [getField_setField_of_ne _ "date" k _ (fun hc => h2 hc.symm),
          getField_setField_of_ne _ "loc" k _ (fun hc => h1 hc.symm)]

/-- C5 amended: an unmapped column is never an error, but the two wide
variants treat it differently.  Migration-Core keeps every unmapped column
under the sanitized key — as a float when the value passes the numeric
probe and as an explicit null otherwise.  Migration-Checklist keeps an
unmapped column only when the value probes as an integer that is strictly
positive (stored as an int); any other value — including every
non-numeric one — is silently dropped rather than kept as null. -/
theorem c5_amended :
    (∀ h s : String, map_header coreMap h = none →
      ∃ st, coreCreate (some [h]) [s] = .ok st
        ∧ getField st.fields (sanitize_key h)
            = some (if could_be_number (Value.str s) then
                Value.num (pyFloat (Value.str s)) else Value.null))
    ∧ (∀ h s : String, map_header checklistMap h = none →
        sanitize_key h ≠ "loc" → sanitize_key h ≠ "date" →
        ∃ st, mcCreate (some [h]) [s] = .ok st
          ∧ getField st.fields (sanitize_key h)
              = (if could_be_int (Value.str s) ∧ 0 < pyInt (Value.str s)
                 then some (Value.int (pyInt (Value.str s))) else none)) := by
  constructor
  · intro h s hm
    by_cases hc : could_be_number (Value.str s)
    · refine ⟨{ fields := setField [] (sanitize_key h) (Value.num (pyFloat (Value.str s))), id := none }, ?_, ?_⟩
      · simp [coreCreate, coreLoop, coreStep, hm, hc]
      · rw [getField_setField_self]
        simp [hc]
    · refine ⟨{ fields := setField [] (sanitize_key h) Value.null, id := none }, ?_, ?_⟩
      · simp [coreCreate, coreLoop, coreStep, hm, hc]
      · rw [getField_setField_self]
        simp [hc]
  · intro h s hm hk1 hk2
    by_cases hc : could_be_int (Value.str s)
    · by_cases hv : 0 < pyInt (Value.str s)
      · have hloop : mcLoop [h] [s] 0
            { fields := [], id := none, lon := none, lat := none, stale := [] }
            = .ok { fields := setField [] (sanitize_key h) (Value.int (pyInt (Value.str s))), id := none, lon := none, lat := none, stale := [] } := by
          simp [mcLoop, mcStep, hm, hc, hv]
        have hgd : gen_date (setField (setField [] (sanitize_key h) (Value.int (pyInt (Value.str s)))) "loc" Value.null) = .ok .null :=
          gen_date_null_of_invalid (setField_isEmpty_false _ _ _)
            (cerbValidate_false_of_null_loc
              (mem_of_getField (getField_setField_self _ _ _)))
        obtain ⟨st2, hfin⟩ := mcFinalize_ok_of_gen_date
          { fields := setField [] (sanitize_key h) (Value.int (pyInt (Value.str s))), id := none, lon := none, lat := none, stale := [] } hgd
        refine ⟨st2, mcCreate_build hloop hfin, ?_⟩
        rw [mcFinalize_preserves hfin (sanitize_key h) hk1 hk2]
        dsimp only
        rw [getField_setField_self]
        simp [hc, hv]
      · have hloop : mcLoop [h] [s] 0
            { fields := [], id := none, lon := none, lat := none, stale := [] }
            = .ok { fields := [], id := none, lon := none, lat := none,
                    stale := [] } := by
          simp [mcLoop, mcStep, hm, hc, hv]
        have hgd : gen_date (setField ([] : Fields) "loc" Value.null) = .ok .null :=
          gen_date_null_of_invalid (setField_isEmpty_false _ _ _)
            (cerbValidate_false_of_null_loc
              (mem_of_getField (getField_setField_self _ _ _)))
        obtain ⟨st2, hfin⟩ := mcFinalize_ok_of_gen_date
          { fields := [], id := none, lon := none, lat := none, stale := [] } hgd
        refine ⟨st2, mcCreate_build hloop hfin, ?_⟩
        rw [mcFinalize_preserves hfin (sanitize_key h) hk1 hk2]
        simp [getField, hc, hv]
    · have hloop : mcLoop [h] [s] 0
          { fields := [], id := none, lon := none, lat := none, stale := [] }
          = .ok { fields := [], id := none, lon := none, lat := none,
                  stale := [] } := by
        simp [mcLoop, mcStep, hm, hc]
      have hgd : gen_date (setField ([] : Fields) "loc" Value.null) = .ok .null :=
        gen_date_null_of_invalid (setField_isEmpty_false _ _ _)
          (cerbValidate_false_of_null_loc
            (mem_of_getField (getField_setField_self _ _ _)))
      obtain ⟨st2, hfin⟩ := mcFinalize_ok_of_gen_date
        { fields := [], id := none, lon := none, lat := none, stale := [] } hgd
      refine ⟨st2, mcCreate_build hloop hfin, ?_⟩
      rw [mcFinalize_preserves hfin (sanitize_key h) hk1 hk2]
      simp [getField, hc]

/-- Witness for C5 at concrete cells: Core keeps `abc` as null and `5.5`
as a float; Checklist keeps `5` as an int but drops `abc` and `-3`. -/
theorem c5_amended_witness :
    (∃ st, coreCreate (some ["nlcd01x"]) ["abc"] = .ok st
      ∧ getField st.fields (sanitize_key "nlcd01x")
          = some (if could_be_number (Value.str "abc") then
              Value.num (pyFloat (Value.str "abc")) else Value.null))
    ∧ (∃ st, mcCreate (some ["nlcd01x"]) ["-3"] = .ok st
      ∧ getField st.fields (sanitize_key "nlcd01x")
          = (if could_be_int (Value.str "-3") ∧ 0 < pyInt (Value.str "-3")
             then some (Value.int (pyInt (Value.str "-3"))) else none)) := by
  constructor
  · exact c5_amended.1 "nlcd01x" "abc" (by rfl)
  · exact c5_amended.2 "nlcd01x" "-3" (by rfl) (by decide) (by decide)

/-- C7 amended: for a string-typed schema field, coercion maps a blank
value or the literal `?` placeholder to null, and any other raw string to
the raw string *unchanged* — the stored value is not trimmed (only the
blankness test strips whitespace). -/
theorem c7_amended (sch : Schema) (fields : Fields) (h s : String)
    (fe : FieldSchema) (hl : lookupSchema sch h = some fe)
    (ht : fe.type = .string) :
    set_field_by_schema sch fields h (.str s)
      = .ok (setField fields h
          (if trimChars s.data = [] ∨ s = "?" then Value.null
           else Value.str s)) := by
  unfold set_field_by_schema
  rw [hl]
  dsimp only
  rw [ht]
  dsimp only
  by_cases he : trimChars s.data = []
  · rw [if_pos (show is_empty_str (Value.str s) = true by simp [is_empty_str, he]),
        if_pos (Or.inl he)]
  · rw [if_neg (show ¬ is_empty_str (Value.str s) = true by simp [is_empty_str, he])]
    by_cases hq : s = "?"
    · rw [if_pos (show Value.str s = Value.str "?" by rw [hq]),
          if_pos (Or.inr hq)]
    · rw [if_neg (show ¬ Value.str s = Value.str "?" by simp [hq]),
          if_neg (by simp [he, hq])]

/-- Witness for C7 at the `country` field of the checklist schema: a
padded string is stored raw, a blank is nulled. -/
theorem c7_amended_witness :
    set_field_by_schema checklistSchema [] "country" (Value.str " x ")
      = .ok (setField [] "country"
          (if trimChars " x ".data = [] ∨ " x " = "?" then Value.null
           else Value.str " x ")) :=
  c7_amended checklistSchema [] "country" " x " _ (by rfl) (by rfl)

/-- C9 amended: an invalid record is queued exactly when it passes its own
schema validation, and that validation requires only the shape the
constructor always provides — a datetime capture timestamp, a dict error
payload (which may be empty), a string source-type tag (not checked
against the known record types), and an integer-or-null row number.  Hence
every constructed invalid record validates, and everything the per-row
processors queue on the invalid side has passed this validation. -/
theorem c9_amended :
    (∀ (now : Int) (errs : List (String × String)) (rt : String) (rn : Int),
      invalidValidateB (invalidRecordFields now errs rt (some rn)) = true)
    ∧ (∀ (hdrRow : Option (List String)) (endOfData rowCount : Nat)
        (row : List String) (now : Int) (inv : Fields),
        processRowTax hdrRow endOfData rowCount row now
          = .ok (some (none, some inv)) → invalidValidateB inv = true)
    ∧ (∀ (hdrRow : Option (List String)) (endOfData rowCount : Nat)
        (row : List String) (now : Int) (inv : Fields),
        processRowMC hdrRow endOfData rowCount row now
          = .ok (some (none, some inv)) → invalidValidateB inv = true) := by
  refine ⟨?_, ?_, ?_⟩
  · intro now errs rt rn
    rfl
  · intro hdrRow endOfData rowCount row now inv h
    unfold processRowTax at h
    split at h
    · split at h
      · split at h
        · simp at h
        · simp at h
        · simp at h
        · rename_i rec
          split at h
          · simp at h
          · dsimp only at h
            split at h
            · rename_i hq
              simp only [Except.ok.injEq, Option.some.injEq, Prod.mk.injEq] at h
              rw [← h.2]
              exact hq
            · simp at h
      · simp at h
    · simp at h
  · intro hdrRow endOfData rowCount row now inv h
    unfold processRowMC at h
    split at h
    · split at h
      · split at h
        · simp at h
        · simp at h
        · simp at h
        · rename_i rec
          split at h
          · simp at h
          · dsimp only at h
            split at h
            · rename_i hq
              simp only [Except.ok.injEq, Option.some.injEq, Prod.mk.injEq] at h
              rw [← h.2]
              exact hq
            · simp at h
      · simp at h
    · simp at h

/-- Witness for C9: a constructed invalid record with a non-empty payload
validates, and the empty-payload record the Taxonomy processor queues for
a blank `sci_name` row validated before being queued. -/
theorem c9_amended_witness :
    invalidValidateB (invalidRecordFields 5 [("x", "y")] "Whatever" (some 9)) = true
    ∧ invalidValidateB (invalidRecordFields 0 [] "TaxonomyRecord" (some 2)) = true := by
  constructor
  · exact c9_amended.1 5 [("x", "y")] "Whatever" 9
  · exact c9_amended.2.1 (some ["sci_name", "primary_com_name"]) 3 2
      ["", "Unknown"] 0 (invalidRecordFields 0 [] "TaxonomyRecord" (some 2)) (by rfl)

lemma sfbs_string_eq (sch : Schema) (fields : Fields) (h : String) (v : Value)
    (fe : FieldSchema) (hl : lookupSchema sch h = some fe)
    (ht : fe.type = .string) :
    set_field_by_schema sch fields h v
      = .ok (setField fields h
          (if is_empty_str v then Value.null
           else if v = Value.str "?" then Value.null else v)) := by
  unfold set_field_by_schema
  rw [hl]
  dsimp only
  rw [ht]
  dsimp only
  by_cases he : is_empty_str v
  · rw [if_pos he, if_pos he]
  · rw [if_neg he, if_neg he]
    by_cases hq : v = Value.str "?"
    · rw [if_pos hq, if_pos hq]
    · rw [if_neg hq, if_neg hq]

lemma sfbs_integer_eq (sch : Schema) (fields : Fields) (h : String) (v : Value)
    (fe : FieldSchema) (hl : lookupSchema sch h = some fe)
    (ht : fe.type = .integer) :
    set_field_by_schema sch fields h v
      = .ok (setField fields h
          (if could_be_int v then Value.int (pyInt v) else Value.null)) := by
  unfold set_field_by_schema
  rw [hl]
  dsimp only
  rw [ht]
  dsimp only
  by_cases hc : could_be_int v
  · rw [if_pos hc, if_pos hc]
  · rw [if_neg hc, if_neg hc]

lemma sfbs_number_eq (sch : Schema) (fields : Fields) (h : String) (v : Value)
    (fe : FieldSchema) (hl : lookupSchema sch h = some fe)
    (ht : fe.type = .number) :
    set_field_by_schema sch fields h v
      = .ok (setField fields h
          (if could_be_number v then Value.num (pyFloat v) else Value.null)) := by
  unfold set_field_by_schema
  rw [hl]
  dsimp only
  rw [ht]
  dsimp only
  by_cases hc : could_be_number v
  · rw [if_pos hc, if_pos hc]
  · rw [if_neg hc, if_neg hc]

lemma sfbs_float_eq (sch : Schema) (fields : Fields) (h : String) (v : Value)
    (fe : FieldSchema) (hl : lookupSchema sch h = some fe)
    (ht : fe.type = .float) :
    set_field_by_schema sch fields h v
      = .ok (setField fields h
          (if could_be_float v then Value.num (pyFloat v) else Value.null)) := by
  unfold set_field_by_schema
  rw [hl]
  dsimp only
  rw [ht]
  dsimp only
  by_cases hc : could_be_float v
  · rw [if_pos hc, if_pos hc]
  · rw [if_neg hc, if_neg hc]

lemma sfbs_boolean_eq (sch : Schema) (fields : Fields) (h : String) (v : Value)
    (fe : FieldSchema) (hl : lookupSchema sch h = some fe)
    (ht : fe.type = .boolean) :
    set_field_by_schema sch fields h v
      = .ok (setField fields h (parse_boolean v)) := by
  unfold set_field_by_schema
  rw [hl]
  dsimp only
  rw [ht]

lemma coerceDatetime_str_ok (fields : Fields) (header s fmt : String) :
    ∃ fs2, coerceDatetime fields header (.str s) fmt = .ok fs2 := by
  unfold coerceDatetime
  by_cases hc : could_be_datetime (.str s) fmt
  · have hsome : (strptime s fmt).isSome := by
      unfold could_be_datetime at hc
      dsimp only at hc
      split at hc
      · simp at hc
      · exact hc
    rcases Option.isSome_iff_exists.mp hsome with ⟨d, hd⟩
    rw [if_pos hc]
    dsimp only
    rw [hd]
    exact ⟨_, rfl⟩
  · rw [if_neg hc]
    exact ⟨_, rfl⟩

lemma sfbs_datetime_str_ok (sch : Schema) (fields : Fields) (h s : String)
    (fe : FieldSchema) (hl : lookupSchema sch h = some fe)
    (ht : fe.type = .datetime) (hf : fe.dtFormat ≠ .absent) :
    ∃ fs2, set_field_by_schema sch fields h (.str s) = .ok fs2 := by
  unfold set_field_by_schema
  rw [hl]
  dsimp only
  rw [ht]
  dsimp only
  cases hdf : fe.dtFormat with
  | absent => exact absurd hdf hf
  | null => exact coerceDatetime_str_ok fields h s STRFTIME_FORMAT
  | fmt fmtS => exact coerceDatetime_str_ok fields h s fmtS

lemma parse_boolean_shape (v : Value) :
    parse_boolean v = Value.null ∨ ∃ b, parse_boolean v = Value.bool b := by
  unfold parse_boolean
  repeat' split
  all_goals first
    | exact Or.inl rfl
    | exact Or.inr ⟨_, rfl⟩

lemma parse_boolean_bool (b : Bool) :
    parse_boolean (Value.bool b) = Value.bool b := by
  cases b <;> rfl

/-- C8 amended: schema-driven coercion is total over raw strings for every
declared type — string, integer, number, float and boolean never raise,
and datetime never raises on a string either, provided the schema entry
carries its `datetime_format` key.  An unparseable string yields null for
the numeric and boolean types.  Idempotence holds for string, integer,
number, float and boolean: re-coercing the stored value stores the same
value again.  (Idempotence fails for datetime — re-coercing a stored
datetime raises TypeError, see the counterexample.) -/
theorem c8_amended :
    (∀ (sch : Schema) (fields : Fields) (h s : String) (fe : FieldSchema),
      lookupSchema sch h = some fe →
      (fe.type = .string ∨ fe.type = .integer ∨ fe.type = .number ∨
       fe.type = .float ∨ fe.type = .boolean) →
      ∃ fs2, set_field_by_schema sch fields h (.str s) = .ok fs2)
    ∧ (∀ (sch : Schema) (fields : Fields) (h s : String) (fe : FieldSchema),
        lookupSchema sch h = some fe → fe.type = .datetime →
        fe.dtFormat ≠ .absent →
        ∃ fs2, set_field_by_schema sch fields h (.str s) = .ok fs2)
    ∧ (∀ (sch : Schema) (fields : Fields) (h : String) (v : Value)
        (fe : FieldSchema) (fs2 : Fields) (w : Value),
        lookupSchema sch h = some fe →
        (fe.type = .string ∨ fe.type = .integer ∨ fe.type = .number ∨
         fe.type = .float ∨ fe.type = .boolean) →
        set_field_by_schema sch fields h v = .ok fs2 →
        getField fs2 h = some w →
        ∃ fs3, set_field_by_schema sch fs2 h w = .ok fs3
          ∧ getField fs3 h = some w)
    ∧ (∀ (sch : Schema) (fields : Fields) (h s : String) (fe : FieldSchema),
        lookupSchema sch h = some fe →
        ((fe.type = .integer ∧ parsePyInt s = none) ∨
         (fe.type = .number ∧ parsePyFloat s = none) ∨
         (fe.type = .float ∧ parsePyFloat s = none) ∨
         (fe.type = .boolean ∧ could_be_boolean (.str s) = false)) →
        ∃ fs2, set_field_by_schema sch fields h (.str s) = .ok fs2
          ∧ getField fs2 h = some Value.null) := by
  refine ⟨?_, ?_, ?_, ?_⟩
  · intro sch fields h s fe hl hty
    rcases hty with ht | ht | ht | ht | ht
    · exact ⟨_, sfbs_string_eq sch fields h (.str s) fe hl ht⟩
    · exact ⟨_, sfbs_integer_eq sch fields h (.str s) fe hl ht⟩
    · exact ⟨_, sfbs_number_eq sch fields h (.str s) fe hl ht⟩
    · exact ⟨_, sfbs_float_eq sch fields h (.str s) fe hl ht⟩
    · exact ⟨_, sfbs_boolean_eq sch fields h (.str s) fe hl ht⟩
  · intro sch fields h s fe hl ht hf
    exact sfbs_datetime_str_ok sch fields h s fe hl ht hf
  · intro sch fields h v fe fs2 w hl hty hset hget
    rcases hty with ht | ht | ht | ht | ht
    · rw [sfbs_string_eq sch fields h v fe hl ht] at hset
      simp only [Except.ok.injEq] at hset
      subst hset
      rw [getField_setField_self] at hget
      have hw := Option.some.inj hget
      refine ⟨_, sfbs_string_eq sch _ h w fe hl ht, ?_⟩
      rw [getField_setField_self]
      congr 1
      by_cases he : is_empty_str v
      · rw [if_pos he] at hw
        rw [← hw]
        rfl
      · rw [if_neg he] at hw
        by_cases hq : v = Value.str "?"
        · rw [if_pos hq] at hw
          rw [← hw]
          rfl
        · rw [if_neg hq] at hw
          rw [← hw, if_neg he, if_neg hq]
    · rw [sfbs_integer_eq sch fields h v fe hl ht] at hset
      simp only [Except.ok.injEq] at hset
      subst hset
      rw [getField_setField_self] at hget
      have hw := Option.some.inj hget
      refine ⟨_, sfbs_integer_eq sch _ h w fe hl ht, ?_⟩
      rw [getField_setField_self]
      congr 1
      by_cases hc : could_be_int v
      · rw [if_pos hc] at hw
        rw [← hw]
        rfl
      · rw [if_neg hc] at hw
        rw [← hw]
        rfl
    · rw [sfbs_number_eq sch fields h v fe hl ht] at hset
      simp only [Except.ok.injEq] at hset
      subst hset
      rw [getField_setField_self] at hget
      have hw := Option.some.inj hget
      refine ⟨_, sfbs_number_eq sch _ h w fe hl ht, ?_⟩
      rw [getField_setField_self]
      congr 1
      by_cases hc : could_be_number v
      · rw [if_pos hc] at hw
        rw [← hw]
        rfl
      · rw [if_neg hc] at hw
        rw [← hw]
        rfl
    · rw [sfbs_float_eq sch fields h v fe hl ht] at hset
      simp only [Except.ok.injEq] at hset
      subst hset
      rw [getField_setField_self] at hget
      have hw := Option.some.inj hget
      refine ⟨_, sfbs_float_eq sch _ h w fe hl ht, ?_⟩
      rw [getField_setField_self]
      congr 1
      by_cases hc : could_be_float v
      · rw [if_pos hc] at hw
        rw [← hw]
        rfl
      · rw [if_neg hc] at hw
        rw [← hw]
        rfl
    · rw [sfbs_boolean_eq sch fields h v fe hl ht] at hset
      simp only [Except.ok.injEq] at hset
      subst hset
      rw [getField_setField_self] at hget
      have hw := Option.some.inj hget
      refine ⟨_, sfbs_boolean_eq sch _ h w fe hl ht, ?_⟩
      rw [getField_setField_self]
      congr 1
      rw [← hw]
      rcases parse_boolean_shape v with hn | ⟨b, hb⟩
      · rw [hn]
        rfl
      · rw [hb]
        exact parse_boolean_bool b
  · intro sch fields h s fe hl hty
    rcases hty with ⟨ht, hp⟩ | ⟨ht, hp⟩ | ⟨ht, hp⟩ | ⟨ht, hp⟩
    · refine ⟨_, sfbs_integer_eq sch fields h (.str s) fe hl ht, ?_⟩
      rw [getField_setField_self]
      have : could_be_int (Value.str s) = false := by
        simp [could_be_int, hp]
      rw [this]
      rfl
    · refine ⟨_, sfbs_number_eq sch fields h (.str s) fe hl ht, ?_⟩
      rw [getField_setField_self]
      have : could_be_number (Value.str s) = false := by
        simp [could_be_number, hp]
      rw [this]
      rfl
    · refine ⟨_, sfbs_float_eq sch fields h (.str s) fe hl ht, ?_⟩
      rw [getField_setField_self]
      have : could_be_float (Value.str s) = false := by
        simp [could_be_float, hp]
      rw [this]
      rfl
    · refine ⟨_, sfbs_boolean_eq sch fields h (.str s) fe hl ht, ?_⟩
      rw [getField_setField_self]
      unfold parse_boolean
      rw [hp]
      rfl

/-- Witness for C8 on concrete coercions: the unparseable string `abc`
nulls an integer field; re-coercing the stored integer `12` stores `12`
again; a datetime-typed string coerces without raising. -/
theorem c8_amended_witness :
    (∃ fs2, set_field_by_schema checklistSchema [] "number_observers"
        (Value.str "abc") = .ok fs2 ∧ getField fs2 "number_observers"
          = some Value.null)
    ∧ (∃ fs3, set_field_by_schema checklistSchema
        [("number_observers", Value.int 12)] "number_observers"
        (Value.int 12) = .ok fs3
        ∧ getField fs3 "number_observers" = some (Value.int 12))
    ∧ (∃ fs2, set_field_by_schema dtSchema [] "d" (Value.str "nonsense")
        = .ok fs2) := by
  refine ⟨?_, ?_, ?_⟩
  · exact c8_amended.2.2.2 checklistSchema [] "number_observers" "abc" _
      (by rfl) (Or.inl ⟨rfl, rfl⟩)
  · exact c8_amended.2.2.1 checklistSchema [] "number_observers"
      (Value.int 12) _ [("number_observers", Value.int 12)] (Value.int 12)
      (by rfl) (Or.inr (Or.inl rfl)) (by rfl) (by rfl)
  · exact c8_amended.2.1 dtSchema [] "d" "nonsense" _ (by rfl) (by rfl)
      (by decide)

lemma mcStep_c3_year (cell : String) (st : MCState)
    (hc : could_be_int (Value.str cell) = true) :
    mcStep c3hdr 3 cell st
      = .ok { st with fields := setField st.fields "year" (Value.int (pyInt (Value.str cell))) } := by
  have hs : set_field_by_schema checklistSchema st.fields "year" (Value.str cell)
      = .ok (setField st.fields "year" (Value.int (pyInt (Value.str cell)))) := by
    rw [sfbs_integer_eq checklistSchema st.fields "year" (Value.str cell)
        _ (by rfl) (by rfl), if_pos hc]
  unfold mcStep
  rw [show c3hdr[3]? = some "year" from rfl]
  dsimp only
  rw [show map_header checklistMap "year" = some "year" from rfl]
  dsimp only
  rw [if_neg (show ¬ (strTrim "year" = "") by decide),
      if_neg (show ¬ (lowerStr "year" = "sampling_event_id") by decide),
      if_neg (show ¬ (lowerStr "year" = "longitude") by decide),
      if_neg (show ¬ (lowerStr "year" = "latitude") by decide), hs]

lemma mcStep_c3_day (cell : String) (st : MCState)
    (hc : could_be_int (Value.str cell) = true) :
    mcStep c3hdr 5 cell st
      = .ok { st with fields := setField st.fields "day" (Value.int (pyInt (Value.str cell))) } := by
  have hs : set_field_by_schema checklistSchema st.fields "day" (Value.str cell)
      = .ok (setField st.fields "day" (Value.int (pyInt (Value.str cell)))) := by
    rw [sfbs_integer_eq checklistSchema st.fields "day" (Value.str cell)
        _ (by rfl) (by rfl), if_pos hc]
  unfold mcStep
  rw [show c3hdr[5]? = some "day" from rfl]
  dsimp only
  rw [show map_header checklistMap "day" = some "day" from rfl]
  dsimp only
  rw [if_neg (show ¬ (strTrim "day" = "") by decide),
      if_neg (show ¬ (lowerStr "day" = "sampling_event_id") by decide),
      if_neg (show ¬ (lowerStr "day" = "longitude") by decide),
      if_neg (show ¬ (lowerStr "day" = "latitude") by decide), hs]

lemma gen_date_valid_int (flds : Fields) (y d : Int)
    (hy : getField flds "year" = some (Value.int y))
    (hd : getField flds "day" = some (Value.int d))
    (hne : flds.isEmpty = false)
    (hv : cerbValidate checklistSchema flds true = true) :
    gen_date flds =
      (if y < 1 ∨ 9999 < y then .ok .null
       else if 999999999 < (d - 1).natAbs then .error .overflowError
       else if ordJan1 y + (d - 1) < 1 ∨ 3652059 < ordJan1 y + (d - 1) then
         .error .overflowError
       else .ok (.date (ordJan1 y + (d - 1)))) := by
  unfold gen_date
  rw [if_neg (show ¬ (flds.isEmpty = true) by simp [hne]),
      if_neg (show ¬ (cerbValidate checklistSchema flds true = false) by simp [hv]),
      hy, hd]

lemma c3_loop_eval (sy sd : String) (y d : Int)
    (hsy : parsePyInt sy = some y) (hsd : parsePyInt sd = some d) :
    mcLoop c3hdr ["S1", "40", "50", sy, "1", sd] 0
      { fields := [], id := none, lon := none, lat := none, stale := [] }
      = .ok (c3StState y d) := by
  have hyi : could_be_int (Value.str sy) = true := by simp [could_be_int, hsy]
  have hdi : could_be_int (Value.str sd) = true := by simp [could_be_int, hsd]
  have hyv : pyInt (Value.str sy) = y := by simp [pyInt, hsy]
  have hdv : pyInt (Value.str sd) = d := by simp [pyInt, hsd]
  have hchain : mcLoop c3hdr ["S1", "40", "50", sy, "1", sd] 0
      { fields := [], id := none, lon := none, lat := none, stale := [] }
      = .ok { fields := [("year", Value.int (pyInt (Value.str sy))), ("month", Value.int 1), ("day", Value.int (pyInt (Value.str sd)))],
              id := some "S1", lon := some (pyFloat (Value.str "50")),
              lat := some (pyFloat (Value.str "40")), stale := [] } := by
    calc mcLoop c3hdr ["S1", "40", "50", sy, "1", sd] 0
          { fields := [], id := none, lon := none, lat := none, stale := [] }
        = mcLoop c3hdr [sy, "1", sd] 3
          { fields := [], id := some "S1", lon := some (pyFloat (Value.str "50")),
            lat := some (pyFloat (Value.str "40")), stale := [] } := rfl
      _ = mcLoop c3hdr ["1", sd] 4
          { fields := [("year", Value.int (pyInt (Value.str sy)))], id := some "S1",
            lon := some (pyFloat (Value.str "50")),
            lat := some (pyFloat (Value.str "40")), stale := [] } := by
            unfold mcLoop
            rw [mcStep_c3_year sy _ hyi]
            exact rfl
      _ = mcLoop c3hdr [sd] 5
          { fields := [("year", Value.int (pyInt (Value.str sy))), ("month", Value.int 1)],
            id := some "S1", lon := some (pyFloat (Value.str "50")),
            lat := some (pyFloat (Value.str "40")), stale := [] } := rfl
      _ = .ok { fields := [("year", Value.int (pyInt (Value.str sy))), ("month", Value.int 1), ("day", Value.int (pyInt (Value.str sd)))],
                id := some "S1", lon := some (pyFloat (Value.str "50")),
                lat := some (pyFloat (Value.str "40")), stale := [] } := by
            unfold mcLoop
            rw [mcStep_c3_day sd _ hdi]
            exact rfl
  rw [← hyv, ← hdv]
  exact hchain

/-- C3 amended: for the canonical Migration-Checklist date row, the
computed date equals January 1st of the year plus (day − 1) days whenever
the year lies within the datetime calendar range [1, 9999] and the
timedelta and sum stay in range — even when the day-of-year overflows the
year, the date rolls into a later year instead of becoming null (so
`year=2021, day=400` yields 2022-02-04).  The date is null when the year is
outside [1, 9999]: `datetime(year, 1, 1)` raises ValueError, which
`gen_date` catches and logs. -/
theorem c3_amended :
    ∀ (sy sd : String) (y d : Int),
      parsePyInt sy = some y → parsePyInt sd = some d →
      ((1 ≤ y ∧ y ≤ 9999 ∧ (d - 1).natAbs ≤ 999999999
          ∧ 1 ≤ ordJan1 y + (d - 1) ∧ ordJan1 y + (d - 1) ≤ 3652059) →
        ∃ st, mcCreate (some c3hdr) ["S1", "40", "50", sy, "1", sd] = .ok st
          ∧ getField st.fields "date" = some (Value.date (ordJan1 y + (d - 1))))
      ∧ ((y < 1 ∨ 9999 < y) →
        ∃ st, mcCreate (some c3hdr) ["S1", "40", "50", sy, "1", sd] = .ok st
          ∧ getField st.fields "date" = some Value.null) := by
  intro sy sd y d hsy hsd
  have hloop := c3_loop_eval sy sd y d hsy hsd
  have hcoord : (if is_valid_coordinate_pair (c3StState y d).lon (c3StState y d).lat then
      Value.point ((c3StState y d).lon.getD (PyF.fin 0)) ((c3StState y d).lat.getD (PyF.fin 0))
     else Value.null)
      = Value.point (pyFloat (Value.str "50")) (pyFloat (Value.str "40")) := rfl
  have hgd4 := gen_date_valid_int
    (setField (c3StState y d).fields "loc"
      (Value.point (pyFloat (Value.str "50")) (pyFloat (Value.str "40")))) y d
    rfl rfl rfl rfl
  constructor
  · rintro ⟨hy1, hy2, hd3, ho1, ho2⟩
    have hgen : gen_date (setField (c3StState y d).fields "loc"
        (Value.point (pyFloat (Value.str "50")) (pyFloat (Value.str "40"))))
        = .ok (.date (ordJan1 y + (d - 1))) := by
      rw [hgd4, if_neg (by rintro (h | h) <;> omega),
          if_neg (by omega),
          if_neg (by rintro (h | h) <;> linarith)]
    have hgd : gen_date (setField (c3StState y d).fields "loc"
        (if is_valid_coordinate_pair (c3StState y d).lon (c3StState y d).lat then
          Value.point ((c3StState y d).lon.getD (PyF.fin 0)) ((c3StState y d).lat.getD (PyF.fin 0))
        else Value.null)) = .ok (.date (ordJan1 y + (d - 1))) := by
      rw [hcoord]
      exact hgen
    obtain ⟨st2, hfin⟩ := mcFinalize_ok_of_gen_date (c3StState y d) hgd
    rcases mcFinalize_ok_parts hfin with ⟨-, -, -, hdate⟩
    refine ⟨st2, mcCreate_build hloop hfin, ?_⟩
    rw [hdate, hgd]
    simp [Except.toOption]
  · intro hout
    have hgen : gen_date (setField (c3StState y d).fields "loc"
        (Value.point (pyFloat (Value.str "50")) (pyFloat (Value.str "40"))))
        = .ok .null := by
      rw [hgd4, if_pos hout]
    have hgd : gen_date (setField (c3StState y d).fields "loc"
        (if is_valid_coordinate_pair (c3StState y d).lon (c3StState y d).lat then
          Value.point ((c3StState y d).lon.getD (PyF.fin 0)) ((c3StState y d).lat.getD (PyF.fin 0))
        else Value.null)) = .ok .null := by
      rw [hcoord]
      exact hgen
    obtain ⟨st2, hfin⟩ := mcFinalize_ok_of_gen_date (c3StState y d) hgd
    rcases mcFinalize_ok_parts hfin with ⟨-, -, -, hdate⟩
    refine ⟨st2, mcCreate_build hloop hfin, ?_⟩
    rw [hdate, hgd]
    simp [Except.toOption]

/-- Witness for C3 at the claim's own example `year=2021, day=400`: the
in-range branch applies (2021 is a legal year and the sum stays within the
calendar), and the resulting date is the ordinal of 2022-02-04 — and at an
out-of-range year `0`, where the date is null. -/
theorem c3_amended_witness :
    (∃ st, mcCreate (some c3hdr) ["S1", "40", "50", "2021", "1", "400"] = .ok st
      ∧ getField st.fields "date" = some (Value.date (ordJan1 2021 + (400 - 1))))
    ∧ (∃ st, mcCreate (some c3hdr) ["S1", "40", "50", "0", "1", "5"] = .ok st
      ∧ getField st.fields "date" = some Value.null) := by
  constructor
  · exact (c3_amended "2021" "400" 2021 400 (by rfl) (by rfl)).1
      (by refine ⟨by decide, by decide, by decide, by decide, by decide⟩)
  · exact (c3_amended "0" "5" 0 5 (by rfl) (by rfl)).2 (Or.inl (by decide))
